import Mathlib

/-!
Verification of the session-lifecycle and cost-governed orchestration core of the
Engineering-Language-Practice backend (src/backend).  Python modules are shallowly
embedded: dataclasses become structures, in-place mutation becomes explicit state
passing, raised exceptions become `Except` errors, and the external oracle
(the Anthropic API) and the stdlib JSON parser `json.loads` are parameters, as the
spec treats both as out-of-scope collaborators.  Machine floats are modelled by
exact rationals.
-/

/-- A JSON value as produced by `json.loads` / consumed by `json.dump`.
Numbers are modelled as exact rationals. -/
inductive Json where
  | null
  | bool (b : Bool)
  | num (q : ℚ)
  | str (s : String)
  | arr (xs : List Json)
  | obj (kvs : List (String × Json))

/-- Python runtime errors that the backend can raise while manipulating
dynamically-typed JSON data. -/
inductive PyError where
  | attributeError
  | keyError
  | typeError
deriving DecidableEq

/-- Python truthiness of a JSON value (`if overall:` in `get_past_summaries`):
empty dict/list/string and zero are falsy, `None` is falsy. -/
def Json.pyTruthy : Json → Bool
  | .null => false
  | .bool b => b
  | .num q => q ≠ 0
  | .str s => s ≠ ""
  | .arr xs => ¬ xs.isEmpty
  | .obj kvs => ¬ kvs.isEmpty

/-- Python `data.get(key, default)`: only defined on dicts, raises
`AttributeError` on any other value (lists, strings, numbers have no `.get`). -/
def Json.pyGetD (j : Json) (k : String) (d : Json) : Except PyError Json :=
  match j with
  | .obj kvs => .ok (((kvs.find? (fun p => p.1 == k)).map Prod.snd).getD d)
  | _ => .error .attributeError

/-- Python `data[key]` subscript on a JSON value: `KeyError` when the key is
missing from a dict, `TypeError` when the value is not a dict. -/
def Json.pyIndex (j : Json) (k : String) : Except PyError Json :=
  match j with
  | .obj kvs =>
    match kvs.find? (fun p => p.1 == k) with
    | some p => .ok p.2
    | none => .error .keyError
  | _ => .error .typeError

/-- Whether the character-list `pat` occurs as a contiguous sublist of `l`
(Python substring containment). -/
def isInfixChars (pat : List Char) : List Char → Bool
  | [] => pat.isEmpty
  | c :: t => pat.isPrefixOf (c :: t) || isInfixChars pat t

/-- Python `k in j` / `k not in j` for a string key `k`: dict membership,
list element equality (a string only equals a string), substring test on
strings, `TypeError` on numbers/booleans/None. -/
def Json.pyContains (j : Json) (k : String) : Except PyError Bool :=
  match j with
  | .obj kvs => .ok (kvs.any (fun p => p.1 == k))
  | .arr xs => .ok (xs.any (fun x => match x with | .str s => s == k | _ => false))
  | .str s => .ok (isInfixChars k.data s.data)
  | _ => .error .typeError

-- ──────────────────────────────────────────────
-- config.py
-- ──────────────────────────────────────────────

/-- `config.ModelConfig`: API name and per-million-token pricing of one model. -/
structure ModelConfig where
  api_name : String
  display_name : String
  input_cost_per_m : ℚ
  output_cost_per_m : ℚ

/-- `MODELS["opus"]`. -/
def mOpus : ModelConfig := ⟨"claude-opus-4-6", "Opus 4.6", 15, 75⟩

/-- `MODELS["sonnet"]`. -/
def mSonnet : ModelConfig := ⟨"claude-sonnet-4-5-20250929", "Sonnet 4.5", 3, 15⟩

/-- `MODELS["haiku"]`. -/
def mHaiku : ModelConfig := ⟨"claude-haiku-4-5-20251001", "Haiku 4.5", 4/5, 4⟩

-- ──────────────────────────────────────────────
-- token_tracker.py
-- ──────────────────────────────────────────────

/-- One entry of `TokenTracker.calls`. -/
structure CallRecord where
  label : String
  input_tokens : Nat
  output_tokens : Nat

/-- `token_tracker.TokenTracker`: accumulated token usage of one session. -/
structure TokenTracker where
  total_input_tokens : Nat
  total_output_tokens : Nat
  call_count : Nat
  calls : List CallRecord

/-- The dataclass defaults: a freshly constructed `TokenTracker()`. -/
def TokenTracker.init : TokenTracker := ⟨0, 0, 0, []⟩

/-- `TokenTracker.track`: record tokens from one API call. -/
def TokenTracker.track (t : TokenTracker) (input_tokens output_tokens : Nat)
    (call_label : String) : TokenTracker :=
  { t with
    total_input_tokens := t.total_input_tokens + input_tokens
    total_output_tokens := t.total_output_tokens + output_tokens
    call_count := t.call_count + 1
    calls := t.calls ++ [⟨call_label, input_tokens, output_tokens⟩] }

/-- Round a rational to the nearest integer, ties to even — the rounding mode
of Python's built-in `round` (banker's rounding).  `Int.fdiv x.num x.den` is
the floor of `x`; the remainder is compared against one half by comparing
`2·(x.num − n·x.den)` with `x.den`. -/
def roundHalfEven (x : ℚ) : ℤ :=
  let n := Int.fdiv x.num (x.den : ℤ)
  let num2 := 2 * (x.num - n * (x.den : ℤ))
  if num2 < (x.den : ℤ) then n
  else if (x.den : ℤ) < num2 then n + 1
  else if n % 2 = 0 then n else n + 1

/-- Python `round(x, 4)` on the exact value: round to 4 decimal places. -/
def round4 (x : ℚ) : ℚ := ((roundHalfEven (x * 10000) : ℤ) : ℚ) / 10000

/-- `TokenTracker.estimate_cost`: pure function of the current totals and the
price table; it reads the tracker and mutates nothing (embedded as a function
that returns only the cost and no new tracker). -/
def TokenTracker.estimate_cost (t : TokenTracker) (model : ModelConfig) : ℚ :=
  let input_cost := ((t.total_input_tokens : ℚ) / 1000000) * model.input_cost_per_m
  let output_cost := ((t.total_output_tokens : ℚ) / 1000000) * model.output_cost_per_m
  round4 (input_cost + output_cost)

/-- `TokenTracker.to_dict`: serialization for JSON storage and API responses. -/
def TokenTracker.to_dict (t : TokenTracker) (model : ModelConfig) : Json :=
  .obj [("total_input_tokens", .num t.total_input_tokens),
        ("total_output_tokens", .num t.total_output_tokens),
        ("call_count", .num t.call_count),
        ("calls", .arr (t.calls.map (fun c =>
          .obj [("label", .str c.label),
                ("input_tokens", .num c.input_tokens),
                ("output_tokens", .num c.output_tokens)]))),
        ("estimated_cost", .num (t.estimate_cost model))]

-- ──────────────────────────────────────────────
-- claude_client.py — the Model Gateway
-- ──────────────────────────────────────────────

/-- `response.usage` of the Anthropic SDK: exact token counts. -/
structure Usage where
  input_tokens : Nat
  output_tokens : Nat

/-- The text and usage the oracle returns for one call
(`response.content[0].text` and `response.usage`). -/
structure OracleResponse where
  text : String
  usage : Usage

/-- Exceptions `_call_claude` can raise: the budget `ValueError`, a transport
failure of the SDK (`anthropic.APIError`), and the `IndexError` raised by
`cleaned.split("\n", 1)[1]` when a fence-opening payload has no newline. -/
inductive CallError where
  | budgetExceeded (current limit : ℚ)
  | transport (msg : String)
  | indexError

/-- Result of one `_call_claude` invocation: the returned dict or raised
exception, the tracker after the call (the Python tracker object is mutated in
place), and the labels of the network calls actually placed (empty when the
gateway refused before any network activity). -/
structure CallOutcome where
  result : Except CallError Json
  tracker : TokenTracker
  oracle_calls : List String

/-- Python `s.split(sep, 1)` restricted to a single-character separator
(used with `"\n"`): `some (before, after)` at the first occurrence,
`none` when the separator does not occur (Python returns the 1-element
list `[s]`, so indexing `[1]` raises `IndexError`). -/
def splitFirstChar (sep : Char) : List Char → Option (List Char × List Char)
  | [] => none
  | c :: t =>
    if c = sep then some ([], t)
    else (splitFirstChar sep t).map (fun p => (c :: p.1, p.2))

/-- The markdown code-fence marker. -/
def fenceChars : List Char := ['`', '`', '`']

/-- Python `s.rsplit("```", 1)[0]`: everything before the last occurrence of the
fence, or the whole string when no fence occurs.  Implemented by locating, in
the reversed character list, the first occurrence of the (palindromic) fence. -/
def splitSub (pat : List Char) : List Char → Option (List Char × List Char)
  | [] => none
  | c :: t =>
    if pat.isPrefixOf (c :: t) then some ([], (c :: t).drop pat.length)
    else (splitSub pat t).map (fun p => (c :: p.1, p.2))

def rsplitFence (l : List Char) : List Char :=
  match splitSub fenceChars l.reverse with
  | some p => p.2.reverse
  | none => l

/-- Python `str.strip()` (over the backend's ASCII payload alphabet):
drop leading and trailing whitespace. -/
def pyStrip (l : List Char) : List Char :=
  ((l.dropWhile Char.isWhitespace).reverse.dropWhile Char.isWhitespace).reverse

/-- The fence-stripping block of `_call_claude` (only reached when the stripped
text starts with three backticks):
`cleaned.split("\n", 1)[1]`, then `cleaned.rsplit("```", 1)[0]`, then
`cleaned.strip()`.  The first step raises `IndexError` when the text has no
newline. -/
def stripFence (cleaned : List Char) : Except CallError (List Char) :=
  match splitFirstChar '\n' cleaned with
  | none => .error .indexError
  | some p => .ok (pyStrip (rsplitFence p.2))

/-- The `try: return json.loads(cleaned) except JSONDecodeError` tail of
`_call_claude`: the parsed dict, or the sentinel failure record carrying the
error marker, the original raw text and the parse error description. -/
def parseOrSentinel (jsonParse : String → Except String Json)
    (cleaned raw_text : String) : Json :=
  match jsonParse cleaned with
  | .ok j => j
  | .error e =>
    .obj [("error", .str "Failed to parse JSON response"),
          ("raw_response", .str raw_text),
          ("parse_error", .str e)]

/-- The body of `_call_claude` after the budget check: network call, usage
tracking, fence stripping, JSON parsing. -/
def callClaudeNet (oracle : Except String OracleResponse)
    (jsonParse : String → Except String Json) (tracker : TokenTracker)
    (call_label : String) : CallOutcome :=
  match oracle with
  | .error msg => ⟨.error (.transport msg), tracker, [call_label]⟩
  | .ok response =>
    let tracker := tracker.track response.usage.input_tokens
      response.usage.output_tokens call_label
    let raw_text := response.text
    let cleaned := pyStrip raw_text.data
    if fenceChars.isPrefixOf cleaned then
      match stripFence cleaned with
      | .error e => ⟨.error e, tracker, [call_label]⟩
      | .ok c => ⟨.ok (parseOrSentinel jsonParse (String.mk c) raw_text),
                  tracker, [call_label]⟩
    else
      ⟨.ok (parseOrSentinel jsonParse (String.mk cleaned) raw_text),
       tracker, [call_label]⟩

/-- `claude_client._call_claude`: budget gate, then `callClaudeNet`.  The
network (`client.messages.create`) is a parameter `oracle`; `json.loads` is a
parameter `jsonParse`.  The prompt strings and `max_tokens` are passed through
to the oracle and do not influence the gateway's control flow. -/
def callClaude (model : ModelConfig) (cost_limit : ℚ)
    (oracle : Except String OracleResponse)
    (jsonParse : String → Except String Json)
    (system_prompt user_prompt : String) (tracker : TokenTracker)
    (call_label : String) (max_tokens : Nat) : CallOutcome :=
  let current_cost := tracker.estimate_cost model
  if cost_limit ≤ current_cost then
    ⟨.error (.budgetExceeded current_cost cost_limit), tracker, []⟩
  else
    callClaudeNet oracle jsonParse tracker call_label

/-- The prompt templates and builders of `prompts.py`.  Their string content is
opaque to the orchestration layer (it is passed to the oracle verbatim and
never inspected), so they are carried as parameters; the one prompt component
with testable structure, `get_length_guidance`, is embedded separately. -/
structure PromptEnv where
  scenario_system : String
  scenario_user : Option String → String → Int → Int → Int → String
  review_system : String
  review_user : Json → List (String × String) → String
  improvement_system : String
  improvement_user : List Json → Json → String
  checklist_system : String
  checklist_user : Json → List Json → Json → String
  quick_scenario_system : String
  quick_scenario_user : String → Option String → String
  quick_grade_system : String
  quick_grade_user : Json → Json → Json → Json → String → String

/-- The ambient configuration and external collaborators a gateway call reads:
the fields of the global `app_config` used by `_call_claude` and the prompt
builders, plus `json.loads`. -/
structure Env where
  model : ModelConfig
  cost_limit : ℚ
  domain : Option String
  difficulty : String
  timer_request : Int
  timer_document : Int
  timer_data : Int
  jsonParse : String → Except String Json
  prompts : PromptEnv

/-- `claude_client.generate_scenario`. -/
def generate_scenario (env : Env) (oracle : Except String OracleResponse)
    (tracker : TokenTracker) : CallOutcome :=
  callClaude env.model env.cost_limit oracle env.jsonParse
    env.prompts.scenario_system
    (env.prompts.scenario_user env.domain env.difficulty env.timer_request
      env.timer_document env.timer_data)
    tracker "scenario_generation" 8192

/-- `claude_client.generate_review`. -/
def generate_review (env : Env) (oracle : Except String OracleResponse)
    (scenario : Json) (user_responses : List (String × String))
    (tracker : TokenTracker) : CallOutcome :=
  callClaude env.model env.cost_limit oracle env.jsonParse
    env.prompts.review_system
    (env.prompts.review_user scenario user_responses)
    tracker "review" 4096

/-- `claude_client.generate_improvement_comparison`. -/
def generate_improvement_comparison (env : Env)
    (oracle : Except String OracleResponse)
    (past_summaries : List Json) (current_feedback : Json)
    (tracker : TokenTracker) : CallOutcome :=
  callClaude env.model env.cost_limit oracle env.jsonParse
    env.prompts.improvement_system
    (env.prompts.improvement_user past_summaries current_feedback)
    tracker "improvement_comparison" 1024

/-- `claude_client.review_checklist`. -/
def review_checklist (env : Env) (oracle : Except String OracleResponse)
    (document : Json) (checklist : List Json) (rubric_key_concepts : Json)
    (tracker : TokenTracker) : CallOutcome :=
  callClaude env.model env.cost_limit oracle env.jsonParse
    env.prompts.checklist_system
    (env.prompts.checklist_user document checklist rubric_key_concepts)
    tracker "checklist_review" 1024

/-- `claude_client.generate_quick_scenario`. -/
def generate_quick_scenario (env : Env) (oracle : Except String OracleResponse)
    (duration_mode : String) (domain : Option String)
    (tracker : TokenTracker) : CallOutcome :=
  callClaude env.model env.cost_limit oracle env.jsonParse
    env.prompts.quick_scenario_system
    (env.prompts.quick_scenario_user duration_mode domain)
    tracker "quick_scenario" 2048

/-- `claude_client.grade_quick_response`. -/
def grade_quick_response (env : Env) (oracle : Except String OracleResponse)
    (question documents key_facts ideal_response : Json)
    (user_response : String) (tracker : TokenTracker) : CallOutcome :=
  callClaude env.model env.cost_limit oracle env.jsonParse
    env.prompts.quick_grade_system
    (env.prompts.quick_grade_user question documents key_facts ideal_response
      user_response)
    tracker "quick_grade" 1024

-- ──────────────────────────────────────────────
-- session_store.py — the Session Store
-- ──────────────────────────────────────────────

/-- The decimal digit characters, `digitChar d` for `d < 10`
(callers only apply it to `n % 10`). -/
def digitChar : Nat → Char
  | 0 => '0' | 1 => '1' | 2 => '2' | 3 => '3' | 4 => '4'
  | 5 => '5' | 6 => '6' | 7 => '7' | 8 => '8' | _ => '9'

/-- Big-endian decimal digits of `n`, accumulated onto `acc`; `fuel ≥ n`
guarantees enough iterations (`n / 10` strictly decreases). -/
def natDigitsGo : Nat → Nat → List Char → List Char
  | 0, _, acc => acc
  | fuel + 1, n, acc =>
    if n = 0 then acc
    else natDigitsGo fuel (n / 10) (digitChar (n % 10) :: acc)

/-- The decimal representation of a natural number, as Python's `str`/`%d`
renders it (no sign, no leading zeros, `"0"` for zero). -/
def natDigits (n : Nat) : List Char :=
  if n = 0 then ['0'] else natDigitsGo n n []

/-- Python `f"{n:03d}"`: the decimal digits of `n`, left-padded with zeros to a
minimum width of 3. -/
def formatCounter (n : Nat) : String :=
  let ds := natDigits n
  String.mk (List.replicate (3 - ds.length) '0' ++ ds)

/-- Python `name.split("_")[-1]`: the substring after the last underscore
(the whole string when no underscore occurs). -/
def afterLastUnderscore (l : List Char) : List Char :=
  l.foldl (fun acc c => if c = '_' then [] else acc ++ [c]) []

/-- Python `int(s)` restricted to the store's id alphabet: a nonempty string of
decimal digits maps to its value, anything else raises (modelled as `none`). -/
def decodeDigits (l : List Char) : Option Nat :=
  if l.isEmpty then none
  else if l.all Char.isDigit then
    some (l.foldl (fun m c => m * 10 + (c.toNat - 48)) 0)
  else none

/-- `int(name.split("_")[-1])` as used on the stems of the day's session
files. -/
def parseCounter (name : String) : Option Nat :=
  decodeDigits (afterLastUnderscore name.data)

/-- The list comprehension `[int(name.split("_")[-1]) for name in existing]`:
all counters, or `none` when any `int(...)` raises. -/
def mapOptionAll {α β : Type} (f : α → Option β) : List α → Option (List β)
  | [] => some []
  | x :: t =>
    match f x, mapOptionAll f t with
    | some y, some ys => some (y :: ys)
    | _, _ => none

/-- `session_store.generate_session_id`, as a function of the current date
string and the stems of the day's existing persisted files (the result of the
`SESSIONS_DIR.glob(f"{today}_*.json")` scan).  `none` models the `ValueError`
that `int(...)` raises on a stem whose suffix is not a numeral. -/
def generate_session_id (today : String) (existing : List String) :
    Option String :=
  if existing.isEmpty then
    some (today ++ "_" ++ formatCounter 1)
  else
    match mapOptionAll parseCounter existing with
    | none => none
    | some counters =>
      some (today ++ "_" ++ formatCounter (counters.foldl max 0 + 1))

/-- A stored file, classified by the outcome of `json.load` on its text:
`.ok` with the parsed value, or `.error` with the decode-error message for a
file whose content is not valid JSON. -/
abbrev FileContent := Except String Json

/-- A directory of session files: stem ↦ content.  Stems are unique (one file
per id). -/
abbrev Store := List (String × FileContent)

/-- Python dict assignment `d[k] = v` (and `save_session`'s overwrite-if-same-id
behaviour): replace the value at an existing key in place, else append. -/
def assocSet {α : Type} : List (String × α) → String → α → List (String × α)
  | [], k, v => [(k, v)]
  | p :: rest, k, v =>
    if p.1 == k then (p.1, v) :: rest else p :: assocSet rest k v

/-- Python `del d[k]`: remove the entry at `k`. -/
def assocRemove {α : Type} : List (String × α) → String → List (String × α)
  | [], _ => []
  | p :: rest, k => if p.1 == k then rest else p :: assocRemove rest k

/-- `session_store.save_session` / `save_quick_session`: write the record as
the file for this id, overwriting any previous file. -/
def save_session (store : Store) (session_id : String) (data : Json) : Store :=
  assocSet store session_id (.ok data)

/-- Lexicographic comparison of character lists by code point — how Python
compares the path strings in `sorted(...)`. -/
def charListLt : List Char → List Char → Bool
  | _, [] => false
  | [], _ :: _ => true
  | a :: as, b :: bs =>
    if a.toNat < b.toNat then true
    else if b.toNat < a.toNat then false
    else charListLt as bs

/-- Python `<` on the stem strings. -/
def stemLt (a b : String) : Bool := charListLt a.data b.data

/-- Insert into a list that is sorted by stem in descending order. -/
def insertDesc {α : Type} (p : String × α) :
    List (String × α) → List (String × α)
  | [] => [p]
  | q :: rest => if stemLt q.1 p.1 then p :: q :: rest else q :: insertDesc p rest

/-- Python `sorted(SESSIONS_DIR.glob("*.json"), reverse=True)`: the files in
descending (newest-first) stem order. -/
def sortDesc {α : Type} : List (String × α) → List (String × α)
  | [] => []
  | p :: rest => insertDesc p (sortDesc rest)

/-- The summary dict `list_sessions` builds for one parsed file: every field is
read with `data.get(..., default)`, so a non-dict `data` (or a non-dict
`feedback`/`token_usage` field) raises `AttributeError`. -/
def projectEntry (stem : String) (data : Json) : Except PyError Json := do
  let timestamp ← data.pyGetD "timestamp" (.str "")
  let domain ← data.pyGetD "domain" (.str "unknown")
  let difficulty ← data.pyGetD "difficulty" (.str "unknown")
  let model_used ← data.pyGetD "model_used" (.str "unknown")
  let feedback ← data.pyGetD "feedback" (.obj [])
  let overall ← feedback.pyGetD "overall" (.obj [])
  let score ← overall.pyGetD "score" .null
  let token_usage ← data.pyGetD "token_usage" (.obj [])
  let estimated_cost ← token_usage.pyGetD "estimated_cost" .null
  pure (.obj [("session_id", .str stem),
              ("timestamp", timestamp),
              ("domain", domain),
              ("difficulty", difficulty),
              ("model_used", model_used),
              ("overall_score", score),
              ("estimated_cost", estimated_cost)])

/-- The loop body of `list_sessions`: a file whose content fails `json.load`
is skipped (`except (JSONDecodeError, KeyError): continue`), but a `PyError`
raised while projecting a parsed value propagates and aborts the listing. -/
def listLoop : List (String × FileContent) → List Json →
    Except PyError (List Json)
  | [], acc => .ok acc
  | (stem, content) :: rest, acc =>
    match content with
    | .error _ => listLoop rest acc
    | .ok data =>
      match projectEntry stem data with
      | .error e => .error e
      | .ok s => listLoop rest (acc ++ [s])

/-- `session_store.list_sessions`: summaries of all files, newest first. -/
def list_sessions (store : Store) : Except PyError (List Json) :=
  listLoop (sortDesc store) []

/-- The summary `get_past_summaries` builds for one parsed file, `none` when
the record has no truthy `overall` feedback (not yet fully reviewed). -/
def summaryOf (stem : String) (data : Json) : Except PyError (Option Json) := do
  let feedback ← data.pyGetD "feedback" (.obj [])
  let overall ← feedback.pyGetD "overall" (.obj [])
  if overall.pyTruthy then
    let score ← overall.pyGetD "score" .null
    let summ ← overall.pyGetD "summary" (.str "")
    let top ← overall.pyGetD "top_improvement" (.str "")
    pure (some (.obj [("session_id", .str stem),
                      ("overall_score", score),
                      ("summary", summ),
                      ("top_improvement", top)]))
  else
    pure none

/-- The loop of `get_past_summaries`: stop at `limit` collected summaries,
skip files that fail `json.load`, include only records with a truthy
`overall`. -/
def pastLoop (limit : Nat) : List (String × FileContent) → List Json →
    Except PyError (List Json)
  | [], acc => .ok acc
  | (stem, content) :: rest, acc =>
    if limit ≤ acc.length then .ok acc
    else
      match content with
      | .error _ => pastLoop limit rest acc
      | .ok data =>
        match summaryOf stem data with
        | .error e => .error e
        | .ok none => pastLoop limit rest acc
        | .ok (some s) => pastLoop limit rest (acc ++ [s])

/-- `session_store.get_past_summaries`: up to `limit` newest graded-session
summaries for the improvement comparison. -/
def get_past_summaries (store : Store) (limit : Nat) :
    Except PyError (List Json) :=
  pastLoop limit (sortDesc store) []

-- ──────────────────────────────────────────────
-- prompts.py — get_length_guidance
-- ──────────────────────────────────────────────

/-- The tuple of length-guidance strings one tier maps to. -/
structure LengthGuidance where
  request : String
  document : String
  data_rows : String
  key_concepts : String
  data_points : String
deriving DecidableEq

/-- `prompts.get_length_guidance` (inner function of
`get_scenario_user_prompt`): the fixed four-tier content-scaling lookup on a
timer duration in seconds. -/
def get_length_guidance (seconds : Int) : LengthGuidance :=
  if seconds ≤ 90 then
    ⟨"1 short paragraph (2-3 sentences)",
     "2-3 sentences with 1-2 key facts each",
     "3-5 rows", "1-2", "2-3"⟩
  else if seconds ≤ 180 then
    ⟨"1 paragraph (4-5 sentences)",
     "1 paragraph (4-6 sentences) with 2-3 key facts each",
     "5-7 rows", "2-3", "3-4"⟩
  else if seconds ≤ 300 then
    ⟨"1-2 paragraphs",
     "1-2 paragraphs with 3-4 key facts each",
     "7-10 rows", "3-4", "3-4"⟩
  else
    ⟨"2-3 paragraphs",
     "2 full paragraphs with 4-5 key facts each",
     "10-14 rows", "3-5", "3-5"⟩

/-- The tier (duration bucket) a number of seconds falls into, following the
spec's description of the lookup: ≤90s / ≤180s / ≤300s / longer. -/
def tierOf (seconds : Int) : Nat :=
  if seconds ≤ 90 then 1 else if seconds ≤ 180 then 2
  else if seconds ≤ 300 then 3 else 4

-- ──────────────────────────────────────────────
-- main.py — the Session Orchestrator
-- ──────────────────────────────────────────────

/-- The value stored in `active_sessions[session_id]` for an in-progress full
session; `user_responses` and `time_used` are insertion-ordered dicts. -/
structure Session where
  session_id : String
  timestamp : String
  model_used : String
  domain : String
  difficulty : String
  scenario : Json
  user_responses : List (String × String)
  time_used : List (String × Int)
  tracker : TokenTracker

/-- The value stored in `active_quick_sessions[session_id]`. -/
structure QuickSession where
  session_id : String
  timestamp : String
  duration_mode : String
  scenario : Json
  tracker : TokenTracker

/-- The process-wide mutable state of the server: both in-memory tables and
both on-disk stores (`sessions/` and `sessions/quick/`). -/
structure ServerState where
  active_sessions : List (String × Session)
  active_quick_sessions : List (String × QuickSession)
  disk : Store
  quick_disk : Store

/-- The error statuses an endpoint raises via `HTTPException`. -/
inductive HTTPError where
  | notFound (detail : String)
  | badRequest (detail : String)
  | internal (detail : String)

/-- Observable outcome of one endpoint invocation: the server state afterwards
(mutations made before a raise persist, since the state is global), the labels
of the oracle network calls placed, and the JSON response or raised error. -/
structure EndpointResult where
  state : ServerState
  calls : List String
  response : Except HTTPError Json

/-- The fixed enumeration of recognized step identifiers in `submit_notes`. -/
def valid_steps : List String :=
  ["background_notes", "deliverable_summary",
   "doc1_notes", "doc2_notes", "doc3_notes",
   "data_predictions", "data_notes"]

/-- `POST /api/session/{id}/submit` (`main.submit_notes`): validate the step
name, then record the content and elapsed time, overwriting any prior value
for that step. -/
def submit_notes (st : ServerState) (session_id step content : String)
    (time_used : Int) : EndpointResult :=
  match st.active_sessions.lookup session_id with
  | none => ⟨st, [], .error (.notFound "Session not found")⟩
  | some session =>
    if step ∈ valid_steps then
      let session' := { session with
        user_responses := assocSet session.user_responses step content
        time_used := assocSet session.time_used step time_used }
      ⟨{ st with active_sessions :=
           assocSet st.active_sessions session_id session' },
       [], .ok (.obj [("status", .str "saved"), ("step", .str step)])⟩
    else
      ⟨st, [], .error (.badRequest "Invalid step")⟩

/-- The tail of `review_session` once `generate_review` has returned and the
improvement step has resolved: assemble the complete record, `save_session`
it, delete the in-memory entry, and return the response body. -/
def finishReview (env : Env) (st : ServerState) (session_id : String)
    (session : Session) (feedback : Json) (improvement : Option Json)
    (tracker : TokenTracker) (calls : List String) : EndpointResult :=
  let session_data : Json :=
    .obj [("session_id", .str session.session_id),
          ("timestamp", .str session.timestamp),
          ("model_used", .str session.model_used),
          ("domain", .str session.domain),
          ("difficulty", .str session.difficulty),
          ("scenario", session.scenario),
          ("user_responses",
            .obj (session.user_responses.map (fun p => (p.1, .str p.2)))),
          ("time_used",
            .obj (session.time_used.map (fun p => (p.1, .num p.2)))),
          ("feedback", feedback),
          ("improvement", improvement.getD .null),
          ("token_usage", tracker.to_dict env.model)]
  ⟨{ st with
       disk := save_session st.disk session_id session_data
       active_sessions := assocRemove st.active_sessions session_id },
   calls,
   .ok (.obj [("feedback", feedback),
              ("improvement", improvement.getD .null),
              ("token_usage", tracker.to_dict env.model)])⟩

/-- The server state after a gateway call raised inside an endpoint: the
in-memory entry is untouched except that its tracker object was mutated in
place by the call. -/
def retainWithTracker (st : ServerState) (session_id : String)
    (session : Session) (tracker : TokenTracker) : ServerState :=
  { st with active_sessions :=
      assocSet st.active_sessions session_id { session with tracker := tracker } }

/-- `POST /api/session/{id}/review` (`main.review_session`): run the review
call; on success optionally run the improvement comparison (only when past
graded summaries exist and the feedback carries no `"error"` key, and with any
failure downgraded to `None`); persist the assembled record and evict the
in-memory entry; on a raised review call leave the session in memory.
`reviewOracle` and `improvementOracle` are the network's behaviour for the two
calls this endpoint can place. -/
def review_session (env : Env)
    (reviewOracle improvementOracle : Except String OracleResponse)
    (st : ServerState) (session_id : String) : EndpointResult :=
  match st.active_sessions.lookup session_id with
  | none => ⟨st, [], .error (.notFound "Session not found")⟩
  | some session =>
    let r := generate_review env reviewOracle session.scenario
      session.user_responses session.tracker
    match r.result with
    | .error _ =>
      ⟨retainWithTracker st session_id session r.tracker, r.oracle_calls,
       .error (.internal "Review failed")⟩
    | .ok feedback =>
      match get_past_summaries st.disk 5 with
      | .error _ =>
        ⟨retainWithTracker st session_id session r.tracker, r.oracle_calls,
         .error (.internal "unhandled exception in get_past_summaries")⟩
      | .ok past_summaries =>
        if past_summaries.isEmpty then
          finishReview env st session_id session feedback none r.tracker
            r.oracle_calls
        else
          match feedback.pyContains "error" with
          | .error _ =>
            ⟨retainWithTracker st session_id session r.tracker, r.oracle_calls,
             .error (.internal "unhandled exception in membership test")⟩
          | .ok true =>
            finishReview env st session_id session feedback none r.tracker
              r.oracle_calls
          | .ok false =>
            let ir := generate_improvement_comparison env improvementOracle
              past_summaries feedback r.tracker
            match ir.result with
            | .ok imp =>
              finishReview env st session_id session feedback (some imp)
                ir.tracker (r.oracle_calls ++ ir.oracle_calls)
            | .error _ =>
              finishReview env st session_id session feedback none
                ir.tracker (r.oracle_calls ++ ir.oracle_calls)

/-- `POST /api/quick/{id}/submit` (`main.submit_quick_session`): grade the
response; a raised grading call or a parse-failure sentinel is a 500 with the
session left in memory; otherwise persist the record and evict the session. -/
def submit_quick_session (env : Env)
    (gradeOracle : Except String OracleResponse)
    (st : ServerState) (session_id response_text : String) (time_used : Int)
    (device : String) : EndpointResult :=
  match st.active_quick_sessions.lookup session_id with
  | none => ⟨st, [], .error (.notFound "Session not found")⟩
  | some session =>
    let scenario := session.scenario
    match (do
      let q ← scenario.pyIndex "question"
      let docs ← scenario.pyIndex "documents"
      let kf ← scenario.pyIndex "key_facts"
      let ideal ← scenario.pyIndex "ideal_response"
      pure (q, docs, kf, ideal) : Except PyError (Json × Json × Json × Json)) with
    | .error _ => ⟨st, [], .error (.internal "Grading failed")⟩
    | .ok (q, docs, kf, ideal) =>
      let out := grade_quick_response env gradeOracle q docs kf ideal
        response_text session.tracker
      let session' : QuickSession := { session with tracker := out.tracker }
      let retained : ServerState :=
        { st with active_quick_sessions :=
            assocSet st.active_quick_sessions session_id session' }
      match out.result with
      | .error _ =>
        ⟨retained, out.oracle_calls, .error (.internal "Grading failed")⟩
      | .ok feedback =>
        match feedback.pyContains "error" with
        | .error _ =>
          ⟨retained, out.oracle_calls,
           .error (.internal "unhandled exception in membership test")⟩
        | .ok true =>
          ⟨retained, out.oracle_calls,
           .error (.internal "Grading parse error")⟩
        | .ok false =>
          let session_data : Json :=
            .obj [("session_id", .str session_id),
                  ("timestamp", .str session.timestamp),
                  ("duration_mode", .str session.duration_mode),
                  ("question", q),
                  ("documents", docs),
                  ("key_facts", kf),
                  ("ideal_response", ideal),
                  ("user_response", .str response_text),
                  ("time_used", .num time_used),
                  ("device", .str device),
                  ("feedback", feedback),
                  ("token_usage", out.tracker.to_dict env.model)]
          ⟨{ st with
               quick_disk := save_session st.quick_disk session_id session_data
               active_quick_sessions :=
                 assocRemove st.active_quick_sessions session_id },
           out.oracle_calls, .ok (.obj [("feedback", feedback)])⟩

-- ──────────────────────────────────────────────
-- Helper definitions and lemmas for the theorems
-- ──────────────────────────────────────────────

/-- A sequence of `track` calls, each given as (input tokens, output tokens,
label). -/
def trackAll (t : TokenTracker) (l : List (Nat × Nat × String)) : TokenTracker :=
  l.foldl (fun acc c => acc.track c.1 c.2.1 c.2.2) t

theorem trackAll_total_input (l : List (Nat × Nat × String)) :
    ∀ t : TokenTracker, (trackAll t l).total_input_tokens =
      t.total_input_tokens + (l.map (fun c => c.1)).sum := by
  induction l with
  | nil => intro t; simp [trackAll]
  | cons c rest ih =>
    intro t
    simp only [trackAll, List.foldl_cons, List.map_cons, List.sum_cons]
    have := ih (t.track c.1 c.2.1 c.2.2)
    simp only [trackAll] at this
    rw [this]
    simp [TokenTracker.track]
    ring

theorem trackAll_total_output (l : List (Nat × Nat × String)) :
    ∀ t : TokenTracker, (trackAll t l).total_output_tokens =
      t.total_output_tokens + (l.map (fun c => c.2.1)).sum := by
  induction l with
  | nil => intro t; simp [trackAll]
  | cons c rest ih =>
    intro t
    simp only [trackAll, List.foldl_cons, List.map_cons, List.sum_cons]
    have := ih (t.track c.1 c.2.1 c.2.2)
    simp only [trackAll] at this
    rw [this]
    simp [TokenTracker.track]
    ring

/-- C6: for every sequence of `track` calls and every price table, the
estimated cost equals `round((Σ inputs)/1e6 · input_price +
(Σ outputs)/1e6 · output_price, 4)`, and it coincides with the cost computed
from a single `track` of the summed totals (additivity).  `estimate_cost`
itself is embedded as a pure function of the tracker, so it mutates nothing by
construction. -/
theorem cost_formula_and_additivity
    (m : ModelConfig) (l : List (Nat × Nat × String)) (lbl : String) :
    (trackAll TokenTracker.init l).estimate_cost m =
      round4 (((((l.map (fun c => c.1)).sum : ℚ) / 1000000) * m.input_cost_per_m)
        + ((((l.map (fun c => c.2.1)).sum : ℚ) / 1000000) * m.output_cost_per_m))
    ∧ (trackAll TokenTracker.init l).estimate_cost m =
      (TokenTracker.init.track (l.map (fun c => c.1)).sum
        (l.map (fun c => c.2.1)).sum lbl).estimate_cost m := by
  have hi := trackAll_total_input l TokenTracker.init
  have ho := trackAll_total_output l TokenTracker.init
  constructor
  · simp only [TokenTracker.estimate_cost]
    rw [hi, ho]
    simp only [TokenTracker.init]
    push_cast
    simp only [List.map_map, Function.comp_def]
    ring_nf
  · simp only [TokenTracker.estimate_cost, TokenTracker.track]
    rw [hi, ho]

/-- C9: the scenario length guidance is a deterministic four-tier function of
the timer duration alone: durations in the same tier (≤90s / ≤180s / ≤300s /
longer) get identical guidance, and each tier maps to its fixed tuple of
request length, document length, data row count, key-concept count and
data-point count. -/
theorem length_guidance_four_tier :
    (∀ s t : Int, tierOf s = tierOf t →
      get_length_guidance s = get_length_guidance t)
    ∧ get_length_guidance 90 =
      ⟨"1 short paragraph (2-3 sentences)",
       "2-3 sentences with 1-2 key facts each", "3-5 rows", "1-2", "2-3"⟩
    ∧ get_length_guidance 180 =
      ⟨"1 paragraph (4-5 sentences)",
       "1 paragraph (4-6 sentences) with 2-3 key facts each",
       "5-7 rows", "2-3", "3-4"⟩
    ∧ get_length_guidance 300 =
      ⟨"1-2 paragraphs", "1-2 paragraphs with 3-4 key facts each",
       "7-10 rows", "3-4", "3-4"⟩
    ∧ get_length_guidance 301 =
      ⟨"2-3 paragraphs", "2 full paragraphs with 4-5 key facts each",
       "10-14 rows", "3-5", "3-5"⟩ := by
  refine ⟨?_, by decide, by decide, by decide, by decide⟩
  intro s t h
  simp only [tierOf] at h
  simp only [get_length_guidance]
  split_ifs at h ⊢ <;> first | rfl | omega

/-- Instantiation of the tier-determinism clause of C9 at concrete durations
30 and 45 (both in the first tier). -/
theorem length_guidance_four_tier_instance :
    tierOf 30 = tierOf 45 ∧
      get_length_guidance 30 = get_length_guidance 45 :=
  ⟨by decide, length_guidance_four_tier.1 30 45 (by decide)⟩

/-- The budget gate of `_call_claude`: when the tracker's estimated cost has
reached the ceiling, the call is refused before any network activity and the
tracker is untouched. -/
theorem callClaude_budget_gate (model : ModelConfig) (cost_limit : ℚ)
    (oracle : Except String OracleResponse)
    (jsonParse : String → Except String Json) (sp up : String)
    (tracker : TokenTracker) (lbl : String) (mt : Nat)
    (h : cost_limit ≤ tracker.estimate_cost model) :
    callClaude model cost_limit oracle jsonParse sp up tracker lbl mt =
      ⟨.error (.budgetExceeded (tracker.estimate_cost model) cost_limit),
       tracker, []⟩ := by
  simp [callClaude, h]

/-- C2: every Protocol operation — scenario generation, review, improvement
comparison, checklist review, quick generate, quick grade — refuses with a
BudgetExceeded condition when the tracker's estimated cost for the active
model has reached the cost ceiling; no oracle call is placed and the tracker
is unchanged. -/
theorem budget_gate_all_operations (env : Env) (tracker : TokenTracker)
    (o1 o2 o3 o4 o5 o6 : Except String OracleResponse)
    (scenario current_feedback document rubric q docs kf ideal : Json)
    (user_responses : List (String × String)) (past_summaries : List Json)
    (checklist : List Json) (duration_mode user_response : String)
    (domain : Option String)
    (h : env.cost_limit ≤ tracker.estimate_cost env.model) :
    generate_scenario env o1 tracker =
      ⟨.error (.budgetExceeded (tracker.estimate_cost env.model)
        env.cost_limit), tracker, []⟩
    ∧ generate_review env o2 scenario user_responses tracker =
      ⟨.error (.budgetExceeded (tracker.estimate_cost env.model)
        env.cost_limit), tracker, []⟩
    ∧ generate_improvement_comparison env o3 past_summaries current_feedback
        tracker =
      ⟨.error (.budgetExceeded (tracker.estimate_cost env.model)
        env.cost_limit), tracker, []⟩
    ∧ review_checklist env o4 document checklist rubric tracker =
      ⟨.error (.budgetExceeded (tracker.estimate_cost env.model)
        env.cost_limit), tracker, []⟩
    ∧ generate_quick_scenario env o5 duration_mode domain tracker =
      ⟨.error (.budgetExceeded (tracker.estimate_cost env.model)
        env.cost_limit), tracker, []⟩
    ∧ grade_quick_response env o6 q docs kf ideal user_response tracker =
      ⟨.error (.budgetExceeded (tracker.estimate_cost env.model)
        env.cost_limit), tracker, []⟩ :=
  ⟨callClaude_budget_gate _ _ _ _ _ _ _ _ _ h,
   callClaude_budget_gate _ _ _ _ _ _ _ _ _ h,
   callClaude_budget_gate _ _ _ _ _ _ _ _ _ h,
   callClaude_budget_gate _ _ _ _ _ _ _ _ _ h,
   callClaude_budget_gate _ _ _ _ _ _ _ _ _ h,
   callClaude_budget_gate _ _ _ _ _ _ _ _ _ h⟩

/-- A stub of the prompt templates (their text never influences control
flow). -/
def promptStub : PromptEnv :=
  ⟨"sys", fun _ _ _ _ _ => "u", "sys", fun _ _ => "u", "sys", fun _ _ => "u",
   "sys", fun _ _ _ => "u", "sys", fun _ _ => "u", "sys", fun _ _ _ _ _ => "u"⟩

/-- A concrete environment whose cost ceiling is already reached by a fresh
tracker (ceiling 0): Opus pricing, default difficulty and timers, and a JSON
parser stub that rejects everything. -/
def envCeiling : Env :=
  { model := mOpus, cost_limit := 0, domain := none,
    difficulty := "intermediate", timer_request := 420, timer_document := 420,
    timer_data := 420, jsonParse := fun _ => .error "stub", prompts := promptStub }

/-- A fresh tracker's estimated cost is zero for every price table. -/
theorem estimate_cost_init (m : ModelConfig) :
    TokenTracker.init.estimate_cost m = 0 := by
  simp [TokenTracker.estimate_cost, TokenTracker.init, round4, roundHalfEven]

/-- The cost of a tracker whose totals are both zero is zero. -/
theorem estimate_cost_zero_totals (t : TokenTracker) (m : ModelConfig)
    (h1 : t.total_input_tokens = 0) (h2 : t.total_output_tokens = 0) :
    t.estimate_cost m = 0 := by
  simp [TokenTracker.estimate_cost, h1, h2, round4, roundHalfEven]

/-- In `envCeiling` the ceiling is already reached by a fresh tracker. -/
theorem envCeiling_budget_reached :
    envCeiling.cost_limit ≤ TokenTracker.init.estimate_cost envCeiling.model := by
  rw [estimate_cost_init]
  simp [envCeiling]

/-- Instantiation of C2 at a concrete environment and tracker: ceiling 0 is
already reached by a fresh tracker, and the scenario-generation operation
refuses without placing a network call. -/
theorem budget_gate_all_operations_instance :
    envCeiling.cost_limit ≤ TokenTracker.init.estimate_cost envCeiling.model
    ∧ generate_scenario envCeiling (.error "net") TokenTracker.init =
      ⟨.error (.budgetExceeded
        (TokenTracker.init.estimate_cost envCeiling.model)
        envCeiling.cost_limit), TokenTracker.init, []⟩ :=
  ⟨envCeiling_budget_reached,
   (budget_gate_all_operations envCeiling TokenTracker.init
     (.error "net") (.error "net") (.error "net") (.error "net")
     (.error "net") (.error "net")
     .null .null .null .null .null .null .null .null [] [] [] "5min" "r" none
     envCeiling_budget_reached).1⟩

/-- When the tracker is under budget, `_call_claude` proceeds to its network
body. -/
theorem callClaude_pass {model : ModelConfig} {cost_limit : ℚ}
    {oracle : Except String OracleResponse}
    {jsonParse : String → Except String Json} {sp up : String}
    {tracker : TokenTracker} {lbl : String} {mt : Nat}
    (h : ¬ (cost_limit ≤ tracker.estimate_cost model)) :
    callClaude model cost_limit oracle jsonParse sp up tracker lbl mt =
      callClaudeNet oracle jsonParse tracker lbl := by
  simp [callClaude, h]

/-- C3 (the crash the spec rules out): when the oracle's payload is exactly
the three-character fence with no newline, `_call_claude` raises `IndexError`
from `cleaned.split("\n", 1)[1]` at the parsing stage instead of returning the
sentinel failure record. -/
theorem fence_without_newline_raises :
    (callClaude mOpus 4 (.ok ⟨"```", ⟨10, 5⟩⟩) (fun _ => .error "stub")
      "sys" "u" TokenTracker.init "review" 4096).result =
      .error .indexError := by
  have h : ¬ ((4 : ℚ) ≤ TokenTracker.init.estimate_cost mOpus) := by
    rw [estimate_cost_init]; norm_num
  rw [callClaude_pass h]
  rfl

theorem str_beq_false_of_ne {a b : String} (h : a ≠ b) : (a == b) = false := by
  simpa using h

theorem lookup_assocSet_self {α : Type} (l : List (String × α)) (k : String)
    (v : α) : (assocSet l k v).lookup k = some v := by
  induction l with
  | nil => simp [assocSet, List.lookup]
  | cons p rest ih =>
    by_cases h : p.1 = k
    · simp [assocSet, h, List.lookup]
    · have hk : (k == p.1) = false := str_beq_false_of_ne (fun hh => h hh.symm)
      have hp : (p.1 == k) = false := str_beq_false_of_ne h
      simp [assocSet, hp, List.lookup, hk, ih]

theorem assocSet_assocSet {α : Type} (l : List (String × α)) (k : String)
    (v w : α) : assocSet (assocSet l k v) k w = assocSet l k w := by
  induction l with
  | nil => simp [assocSet]
  | cons p rest ih =>
    by_cases h : p.1 = k
    · have hp : (p.1 == k) = true := by simp [h]
      simp [assocSet, hp]
    · have hp : (p.1 == k) = false := str_beq_false_of_ne h
      simp [assocSet, hp, ih]

/-- C7: `submit` with a step name outside the fixed enumeration of seven
recognized identifiers fails with a ValidationError and changes nothing;
`submit` with a recognized step overwrites the stored content and elapsed time
for that step, and doing it twice with the same arguments leaves the same
state as doing it once. -/
theorem submit_validation_and_idempotence :
    valid_steps.length = 7
    ∧ (∀ (st : ServerState) (id step content : String) (t : Int) (s : Session),
      st.active_sessions.lookup id = some s →
      step ∉ valid_steps →
      submit_notes st id step content t =
        ⟨st, [], .error (.badRequest "Invalid step")⟩)
    ∧ (∀ (st : ServerState) (id step content : String) (t : Int) (s : Session),
      st.active_sessions.lookup id = some s →
      step ∈ valid_steps →
      ((submit_notes st id step content t).state.active_sessions.lookup id).map
          (fun s2 => s2.user_responses.lookup step) = some (some content)
      ∧ ((submit_notes st id step content t).state.active_sessions.lookup id).map
          (fun s2 => s2.time_used.lookup step) = some (some t)
      ∧ (submit_notes (submit_notes st id step content t).state
          id step content t).state = (submit_notes st id step content t).state) := by
  refine ⟨rfl, ?_, ?_⟩
  · intro st id step content t s hl hstep
    simp [submit_notes, hl, hstep]
  · intro st id step content t s hl hstep
    refine ⟨?_, ?_, ?_⟩
    · simp [submit_notes, hl, hstep, lookup_assocSet_self]
    · simp [submit_notes, hl, hstep, lookup_assocSet_self]
    · simp [submit_notes, hl, hstep, lookup_assocSet_self, assocSet_assocSet]

/-- A minimal in-progress session and server state used to instantiate the
endpoint theorems. -/
def sampleSession : Session :=
  ⟨"2026-02-07_001", "ts", "claude-opus-4-6", "nuclear", "intermediate",
   .obj [], [], [], TokenTracker.init⟩

def sampleState : ServerState := ⟨[("2026-02-07_001", sampleSession)], [], [], []⟩

/-- Instantiation of C7: submitting to an unknown step name fails and changes
nothing, and submitting to `doc1_notes` stores the content. -/
theorem submit_validation_instance :
    sampleState.active_sessions.lookup "2026-02-07_001" = some sampleSession
    ∧ "not_a_step" ∉ valid_steps
    ∧ "doc1_notes" ∈ valid_steps
    ∧ submit_notes sampleState "2026-02-07_001" "not_a_step" "x" 10 =
        ⟨sampleState, [], .error (.badRequest "Invalid step")⟩
    ∧ ((submit_notes sampleState "2026-02-07_001" "doc1_notes" "x"
          10).state.active_sessions.lookup "2026-02-07_001").map
        (fun s2 => s2.user_responses.lookup "doc1_notes") = some (some "x") :=
  ⟨rfl, by decide, by decide,
   submit_validation_and_idempotence.2.1 sampleState "2026-02-07_001"
     "not_a_step" "x" 10 sampleSession rfl (by decide),
   (submit_validation_and_idempotence.2.2 sampleState "2026-02-07_001"
     "doc1_notes" "x" 10 sampleSession rfl (by decide)).1⟩

theorem natDigitsGo_zero (fuel : Nat) (acc : List Char) :
    natDigitsGo fuel 0 acc = acc := by
  cases fuel <;> simp [natDigitsGo]

theorem natDigitsGo_append (fuel : Nat) :
    ∀ (n : Nat) (acc : List Char),
      natDigitsGo fuel n acc = natDigitsGo fuel n [] ++ acc := by
  induction fuel with
  | zero => intro n acc; simp [natDigitsGo]
  | succ f ih =>
    intro n acc
    by_cases h : n = 0
    · simp [natDigitsGo, h]
    · simp only [natDigitsGo, h, ite_false]
      rw [ih (n / 10) (digitChar (n % 10) :: acc),
          ih (n / 10) [digitChar (n % 10)]]
      simp

theorem digitChar_isDigit : ∀ d : Nat, d < 10 → (digitChar d).isDigit = true := by
  decide

theorem digitChar_val : ∀ d : Nat, d < 10 → (digitChar d).toNat - 48 = d := by
  decide

theorem isDigit_ne_underscore (c : Char) (h : c.isDigit = true) : c ≠ '_' := by
  intro heq
  subst heq
  exact absurd h (by decide)

theorem natDigitsGo_all_digits (fuel : Nat) :
    ∀ (n : Nat) (acc : List Char), (∀ c ∈ acc, c.isDigit = true) →
      ∀ c ∈ natDigitsGo fuel n acc, c.isDigit = true := by
  induction fuel with
  | zero => intro n acc h; simpa [natDigitsGo] using h
  | succ f ih =>
    intro n acc h
    by_cases h0 : n = 0
    · simpa [natDigitsGo, h0] using h
    · simp only [natDigitsGo, h0, ite_false]
      apply ih
      intro c hc
      rcases List.mem_cons.mp hc with h1 | h2
      · subst h1; exact digitChar_isDigit _ (Nat.mod_lt _ (by norm_num))
      · exact h c h2

theorem foldl_decode_append_singleton (xs : List Char) (c : Char) (a : Nat) :
    (xs ++ [c]).foldl (fun m d => m * 10 + (d.toNat - 48)) a =
      (xs.foldl (fun m d => m * 10 + (d.toNat - 48)) a) * 10 + (c.toNat - 48) := by
  simp [List.foldl_append]

theorem natDigitsGo_val (fuel : Nat) :
    ∀ n : Nat, 0 < n → n ≤ fuel →
      (natDigitsGo fuel n []).foldl (fun m d => m * 10 + (d.toNat - 48)) 0 = n := by
  induction fuel with
  | zero => intro n h1 h2; omega
  | succ f ih =>
    intro n h1 h2
    have h0 : n ≠ 0 := Nat.pos_iff_ne_zero.mp h1
    simp only [natDigitsGo, h0, ite_false]
    rw [natDigitsGo_append f (n / 10) [digitChar (n % 10)],
        foldl_decode_append_singleton,
        digitChar_val _ (Nat.mod_lt _ (by norm_num))]
    by_cases h10 : n / 10 = 0
    · rw [h10, natDigitsGo_zero]
      simp only [List.foldl_nil]
      omega
    · have hlt : n / 10 < n := Nat.div_lt_self h1 (by norm_num)
      rw [ih (n / 10) (Nat.pos_of_ne_zero h10) (by omega)]
      omega

theorem natDigits_all_digits (n : Nat) : ∀ c ∈ natDigits n, c.isDigit = true := by
  by_cases h : n = 0
  · intro c hc
    simp [natDigits, h] at hc
    subst hc
    decide
  · simp only [natDigits, h, ite_false]
    exact natDigitsGo_all_digits n n [] (by simp)

theorem natDigits_ne_nil (n : Nat) : natDigits n ≠ [] := by
  by_cases h : n = 0
  · simp [natDigits, h]
  · simp only [natDigits, h, ite_false]
    cases n with
    | zero => exact absurd rfl h
    | succ m =>
      simp only [natDigitsGo, h, ite_false]
      rw [natDigitsGo_append]
      simp

theorem natDigits_val (n : Nat) :
    (natDigits n).foldl (fun m d => m * 10 + (d.toNat - 48)) 0 = n := by
  by_cases h : n = 0
  · subst h; decide
  · simp only [natDigits, h, ite_false]
    exact natDigitsGo_val n n (Nat.pos_of_ne_zero h) le_rfl

theorem decodeDigits_pad (k n : Nat) :
    decodeDigits (List.replicate k '0' ++ natDigits n) = some n := by
  have hne : (List.replicate k '0' ++ natDigits n).isEmpty = false := by
    rcases List.exists_cons_of_ne_nil (natDigits_ne_nil n) with ⟨c, t, hct⟩
    rw [hct]
    cases List.replicate k '0' <;> simp
  have hall : (List.replicate k '0' ++ natDigits n).all Char.isDigit = true := by
    simp only [List.all_append, Bool.and_eq_true, List.all_eq_true]
    constructor
    · intro c hc
      rw [List.eq_of_mem_replicate hc]
      decide
    · exact natDigits_all_digits n
  have hz : ∀ j : Nat, (List.replicate j '0').foldl
      (fun m d => m * 10 + (d.toNat - 48)) 0 = 0 := by
    intro j
    induction j with
    | zero => rfl
    | succ i ihi => simpa [List.replicate_succ] using ihi
  simp only [decodeDigits, hne, hall, Bool.false_eq_true, if_false, if_true]
  rw [List.foldl_append, hz, natDigits_val]

theorem foldl_afterLast_no_underscore (ys : List Char)
    (h : ∀ c ∈ ys, c ≠ '_') :
    ∀ acc, ys.foldl (fun acc c => if c = '_' then [] else acc ++ [c]) acc =
      acc ++ ys := by
  induction ys with
  | nil => intro acc; simp
  | cons c t ih =>
    intro acc
    have hc : c ≠ '_' := h c (by simp)
    simp only [List.foldl_cons, if_neg hc]
    rw [ih (fun d hd => h d (by simp [hd])) (acc ++ [c])]
    simp

theorem afterLastUnderscore_append (xs ys : List Char)
    (h : ∀ c ∈ ys, c ≠ '_') :
    afterLastUnderscore (xs ++ '_' :: ys) = ys := by
  unfold afterLastUnderscore
  rw [List.foldl_append]
  simp only [List.foldl_cons, if_pos]
  rw [foldl_afterLast_no_underscore ys h []]
  simp

theorem parseCounter_sid (today : String) (n : Nat) :
    parseCounter (today ++ "_" ++ formatCounter n) = some n := by
  unfold parseCounter formatCounter
  have hdata : (today ++ "_" ++
      String.mk (List.replicate (3 - (natDigits n).length) '0' ++ natDigits n)).data
      = today.data ++ '_' ::
        (List.replicate (3 - (natDigits n).length) '0' ++ natDigits n) := by
    simp [String.data_append]
  rw [hdata, afterLastUnderscore_append, decodeDigits_pad]
  intro c hc
  rcases List.mem_append.mp hc with h1 | h2
  · rw [List.eq_of_mem_replicate h1]; decide
  · exact isDigit_ne_underscore c (natDigits_all_digits n c h2)

theorem sid_inj (today : String) {a b : Nat}
    (h : today ++ "_" ++ formatCounter a = today ++ "_" ++ formatCounter b) :
    a = b := by
  have h2 := congrArg parseCounter h
  rw [parseCounter_sid today, parseCounter_sid today] at h2
  exact Option.some.inj h2

theorem init_le_foldl_max (l : List Nat) : ∀ a : Nat, a ≤ l.foldl max a := by
  induction l with
  | nil => intro a; simp
  | cons x t ih =>
    intro a
    simp only [List.foldl_cons]
    exact le_trans (le_max_left a x) (ih (max a x))

theorem mem_le_foldl_max (l : List Nat) : ∀ (a : Nat), ∀ x ∈ l, x ≤ l.foldl max a := by
  induction l with
  | nil => simp
  | cons y t ih =>
    intro a x hx
    simp only [List.foldl_cons]
    rcases List.mem_cons.mp hx with h1 | h2
    · subst h1; exact le_trans (le_max_right a x) (init_le_foldl_max t _)
    · exact ih (max a y) x h2

theorem mapOptionAll_parseCounter (today : String) (cs : List Nat) :
    mapOptionAll parseCounter
      (cs.map (fun k => today ++ "_" ++ formatCounter k)) = some cs := by
  induction cs with
  | nil => rfl
  | cons k t ih => simp [mapOptionAll, parseCounter_sid today, ih]

/-- C4: starting from one persisted allocation `today_NNN(c)`, the next two
allocations produce `today_NNN(c+1)` and then `today_NNN(c+2)`: suffixes are
strictly increasing, parse back to their counters, and are zero-padded to at
least 3 digits; and against any day state consisting of allocated ids, the
freshly allocated id never duplicates an existing one. -/
theorem allocate_id_monotone_unique (today : String) (c : Nat) (cs : List Nat) :
    generate_session_id today [today ++ "_" ++ formatCounter c] =
      some (today ++ "_" ++ formatCounter (c + 1))
    ∧ generate_session_id today
        [today ++ "_" ++ formatCounter c, today ++ "_" ++ formatCounter (c + 1)] =
      some (today ++ "_" ++ formatCounter (c + 2))
    ∧ parseCounter (today ++ "_" ++ formatCounter c) = some c
    ∧ parseCounter (today ++ "_" ++ formatCounter (c + 1)) = some (c + 1)
    ∧ parseCounter (today ++ "_" ++ formatCounter (c + 2)) = some (c + 2)
    ∧ 3 ≤ (formatCounter (c + 1)).length
    ∧ (∀ id, generate_session_id today
          (cs.map (fun k => today ++ "_" ++ formatCounter k)) = some id →
        id ∉ cs.map (fun k => today ++ "_" ++ formatCounter k)) := by
  refine ⟨?_, ?_, parseCounter_sid today c, parseCounter_sid today (c + 1),
    parseCounter_sid today (c + 2), ?_, ?_⟩
  · have hm0 : max 0 c = c := by omega
    simp [generate_session_id, mapOptionAll, parseCounter_sid today, hm0]
  · have hm : max (max 0 c) (c + 1) = c + 1 := by omega
    simp [generate_session_id, mapOptionAll, parseCounter_sid today, hm]
  · show 3 ≤ (String.mk _).length
    have hno := natDigits_ne_nil (c + 1)
    have hlen : 0 < (natDigits (c + 1)).length := List.length_pos.mpr hno
    simp only [String.length]
    rw [List.length_append, List.length_replicate]
    omega
  · intro id hid
    by_cases hcs : cs = []
    · subst hcs; simp
    · rcases List.exists_cons_of_ne_nil hcs with ⟨k0, t0, rfl⟩
      unfold generate_session_id at hid
      rw [if_neg (by simp), mapOptionAll_parseCounter today] at hid
      intro hmem
      rcases List.mem_map.mp hmem with ⟨k, hk, hkid⟩
      have hidval : id =
          today ++ "_" ++ formatCounter ((k0 :: t0).foldl max 0 + 1) :=
        (Option.some.inj hid).symm
      rw [hidval] at hkid
      have hkeq := sid_inj today hkid
      have hle := mem_le_foldl_max (k0 :: t0) 0 k hk
      omega

/-- Instantiation of C4 at the spec's example: prior id `2026-02-07_003`, the
next two allocations are `2026-02-07_004` and `2026-02-07_005`. -/
theorem allocate_id_monotone_unique_instance :
    generate_session_id "2026-02-07" ["2026-02-07_003"] = some "2026-02-07_004"
    ∧ generate_session_id "2026-02-07" ["2026-02-07_003", "2026-02-07_004"] =
        some "2026-02-07_005"
    ∧ ("2026-02-07_004" : String) ∉ ["2026-02-07_003"] :=
  ⟨(allocate_id_monotone_unique "2026-02-07" 3 [3]).1,
   (allocate_id_monotone_unique "2026-02-07" 3 [3]).2.1,
   (allocate_id_monotone_unique "2026-02-07" 3 [3]).2.2.2.2.2.2
     "2026-02-07_004"
     (allocate_id_monotone_unique "2026-02-07" 3 [3]).1⟩

/-- The list is in strictly descending stem order (how Python's
`sorted(..., reverse=True)` leaves a directory of distinct file names). -/
def sortedByStemDesc {α : Type} : List (String × α) → Bool
  | [] => true
  | [_] => true
  | p :: q :: rest => stemLt q.1 p.1 && sortedByStemDesc (q :: rest)

theorem sortDesc_eq_of_sorted {α : Type} :
    ∀ l : List (String × α), sortedByStemDesc l = true → sortDesc l = l := by
  intro l
  induction l with
  | nil => intro _; rfl
  | cons p rest ih =>
    intro h
    simp only [sortDesc]
    cases rest with
    | nil => rfl
    | cons q t =>
      simp only [sortedByStemDesc, Bool.and_eq_true] at h
      rw [ih h.2]
      simp [insertDesc, h.1]

/-- Every parsed file in the store projects to a summary without raising: the
decidable well-shapedness condition under which the listing cannot abort. -/
def wellShaped (store : Store) : Bool :=
  store.all (fun p => match p.2 with
    | .ok d => (projectEntry p.1 d).isOk
    | .error _ => true)

/-- The summary `list_sessions` would build for one file: `none` when the
content is not valid JSON. -/
def summaryProjection (p : String × FileContent) : Option Json :=
  match p.2 with
  | .ok d => (projectEntry p.1 d).toOption
  | .error _ => none

theorem listLoop_ok (l : List (String × FileContent))
    (h : ∀ p ∈ l, (match p.2 with
      | Except.ok d => (projectEntry p.1 d).isOk
      | Except.error _ => true) = true) :
    ∀ acc, listLoop l acc = .ok (acc ++ l.filterMap summaryProjection) := by
  induction l with
  | nil => intro acc; simp [listLoop]
  | cons p rest ih =>
    obtain ⟨stem, content⟩ := p
    intro acc
    have hp := h (stem, content) (by simp)
    have hrest : ∀ p ∈ rest, (match p.2 with
        | Except.ok d => (projectEntry p.1 d).isOk
        | Except.error _ => true) = true :=
      fun q hq => h q (List.mem_cons_of_mem _ hq)
    match hc : content with
    | Except.error e =>
      simp only [listLoop, List.filterMap_cons, summaryProjection]
      exact ih hrest acc
    | Except.ok d =>
      simp only [hc] at hp
      match hpe : projectEntry stem d with
      | Except.error e => rw [hpe] at hp; exact absurd hp (by simp [Except.isOk, Except.toBool])
      | Except.ok s =>
        simp only [listLoop, hpe, List.filterMap_cons, summaryProjection,
          Except.toOption]
        rw [ih hrest (acc ++ [s])]
        simp

theorem filterMap_summary_length (l : List (String × FileContent))
    (h : ∀ p ∈ l, (match p.2 with
      | Except.ok d => (projectEntry p.1 d).isOk
      | Except.error _ => true) = true) :
    (l.filterMap summaryProjection).length =
      l.countP (fun p => p.2.isOk) := by
  induction l with
  | nil => rfl
  | cons p rest ih =>
    obtain ⟨stem, content⟩ := p
    have hp := h (stem, content) (by simp)
    have hrest : ∀ p ∈ rest, (match p.2 with
        | Except.ok d => (projectEntry p.1 d).isOk
        | Except.error _ => true) = true :=
      fun q hq => h q (List.mem_cons_of_mem _ hq)
    match hc : content with
    | Except.error e =>
      simp only [List.filterMap_cons, summaryProjection, List.countP_cons]
      rw [ih hrest]
      simp [Except.isOk, Except.toBool]
    | Except.ok d =>
      simp only [hc] at hp
      match hpe : projectEntry stem d with
      | Except.error e => rw [hpe] at hp; exact absurd hp (by simp [Except.isOk, Except.toBool])
      | Except.ok s =>
        simp only [List.filterMap_cons, summaryProjection, hpe,
          Except.toOption, List.countP_cons, List.length_cons]
        rw [ih hrest]
        simp [Except.isOk, Except.toBool]

/-- C5 counterexample: a store holding two well-formed records and one file
whose content is valid JSON but not an object (a top-level array).  The
listing does not skip the bad file and return the two good summaries — the
projection's `data.get(...)` raises `AttributeError` and the whole listing
aborts. -/
def recGood : Json := .obj [("timestamp", .str "t")]

def storeWithArrayFile : Store :=
  [("2026-02-07_003", .ok (.arr [.num 1, .num 2])),
   ("2026-02-07_002", .ok recGood),
   ("2026-02-07_001", .ok recGood)]

theorem listing_aborts_on_json_array_file :
    list_sessions storeWithArrayFile = .error .attributeError := by
  rfl

/-- C5 as amended: restricted to files whose parsed content projects without
raising, `list_sessions` returns one summary per file that parses, in
newest-first stem order, skipping exactly the files whose content fails to
parse as JSON. -/
theorem listing_skips_only_json_failures (store : Store)
    (hsorted : sortedByStemDesc store = true)
    (hshape : wellShaped store = true) :
    list_sessions store = .ok (store.filterMap summaryProjection)
    ∧ (store.filterMap summaryProjection).length =
      store.countP (fun p => p.2.isOk) := by
  have h' : ∀ p ∈ store, (match p.2 with
      | Except.ok d => (projectEntry p.1 d).isOk
      | Except.error _ => true) = true := by
    intro p hp
    exact List.all_eq_true.mp hshape p hp
  constructor
  · unfold list_sessions
    rw [sortDesc_eq_of_sorted store hsorted, listLoop_ok store h' []]
    simp
  · exact filterMap_summary_length store h'

/-- Instantiation of amended C5 at a store with two valid records and one file
of invalid (non-JSON) content: the listing returns exactly the two good
summaries, newest first. -/
def storeWithCorruptFile : Store :=
  [("2026-02-07_003", .error "Expecting value: line 1 column 1"),
   ("2026-02-07_002", .ok recGood),
   ("2026-02-07_001", .ok recGood)]

theorem listing_skips_only_json_failures_instance :
    list_sessions storeWithCorruptFile =
      .ok (storeWithCorruptFile.filterMap summaryProjection)
    ∧ (storeWithCorruptFile.filterMap summaryProjection).length = 2 :=
  ⟨(listing_skips_only_json_failures storeWithCorruptFile
      (by decide) (by decide)).1,
   (listing_skips_only_json_failures storeWithCorruptFile
      (by decide) (by decide)).2.trans (by decide)⟩

theorem lookup_eq_none_of_not_mem {α : Type} :
    ∀ (l : List (String × α)) (k : String), k ∉ l.map Prod.fst →
      l.lookup k = none := by
  intro l
  induction l with
  | nil => intro k _; rfl
  | cons p rest ih =>
    intro k hk
    have h1 : k ≠ p.1 := fun hh => hk (by simp [hh])
    simp only [List.lookup, str_beq_false_of_ne h1]
    exact ih k (fun hm => hk (by simp [hm]))

theorem lookup_assocRemove_self {α : Type} :
    ∀ (l : List (String × α)), (l.map Prod.fst).Nodup →
      ∀ k, (assocRemove l k).lookup k = none := by
  intro l
  induction l with
  | nil => intro _ k; rfl
  | cons p rest ih =>
    intro hnd k
    rw [List.map_cons] at hnd
    have hnd' := List.nodup_cons.mp hnd
    by_cases h : p.1 = k
    · subst h
      simp only [assocRemove, beq_self_eq_true, if_true]
      exact lookup_eq_none_of_not_mem rest p.1 hnd'.1
    · simp only [assocRemove, str_beq_false_of_ne h, Bool.false_eq_true,
        if_false, List.lookup, str_beq_false_of_ne (fun hh => h hh.symm)]
      exact ih hnd'.2 k

theorem callClaudeNet_calls (oracle : Except String OracleResponse)
    (jp : String → Except String Json) (t : TokenTracker) (lbl : String) :
    (callClaudeNet oracle jp t lbl).oracle_calls = [lbl] := by
  unfold callClaudeNet
  cases oracle with
  | error m => rfl
  | ok resp =>
    simp only
    by_cases hf : fenceChars.isPrefixOf (pyStrip resp.text.data)
    · simp only [hf, if_true]
      cases stripFence (pyStrip resp.text.data) <;> rfl
    · simp only [hf, Bool.false_eq_true, if_false]

theorem callClaude_eq_net_of_ok {model : ModelConfig} {cl : ℚ}
    {oracle : Except String OracleResponse}
    {jp : String → Except String Json} {sp up : String} {t : TokenTracker}
    {lbl : String} {mt : Nat} {j : Json}
    (h : (callClaude model cl oracle jp sp up t lbl mt).result = .ok j) :
    callClaude model cl oracle jp sp up t lbl mt = callClaudeNet oracle jp t lbl := by
  by_cases hb : cl ≤ t.estimate_cost model
  · exfalso
    simp [callClaude, hb] at h
  · simp [callClaude, hb]

theorem review_session_raise_eq (env : Env)
    (ro io : Except String OracleResponse) (st : ServerState)
    (session_id : String) (session : Session) (e : CallError)
    (hl : st.active_sessions.lookup session_id = some session)
    (hr : (generate_review env ro session.scenario session.user_responses
      session.tracker).result = .error e) :
    review_session env ro io st session_id =
      ⟨retainWithTracker st session_id session
        (generate_review env ro session.scenario session.user_responses
          session.tracker).tracker,
       (generate_review env ro session.scenario session.user_responses
         session.tracker).oracle_calls,
       .error (.internal "Review failed")⟩ := by
  simp [review_session, hl, hr]

theorem review_session_skip_eq (env : Env)
    (ro io : Except String OracleResponse) (st : ServerState)
    (session_id : String) (session : Session) (fb : Json) (past : List Json)
    (b : Bool)
    (hl : st.active_sessions.lookup session_id = some session)
    (hr : (generate_review env ro session.scenario session.user_responses
      session.tracker).result = .ok fb)
    (hp : get_past_summaries st.disk 5 = .ok past)
    (hc : fb.pyContains "error" = .ok b)
    (hskip : past = [] ∨ b = true) :
    review_session env ro io st session_id =
      finishReview env st session_id session fb none
        (generate_review env ro session.scenario session.user_responses
          session.tracker).tracker
        (generate_review env ro session.scenario session.user_responses
          session.tracker).oracle_calls := by
  by_cases hpe : past = []
  · subst hpe
    simp [review_session, hl, hr, hp]
  · have hb : b = true := by
      rcases hskip with h | h
      · exact absurd h hpe
      · exact h
    subst hb
    have hpe2 : past.isEmpty = false := by
      cases past with
      | nil => exact absurd rfl hpe
      | cons a t => rfl
    simp [review_session, hl, hr, hp, hpe2, hc]

theorem review_session_improve_ok_eq (env : Env)
    (ro io : Except String OracleResponse) (st : ServerState)
    (session_id : String) (session : Session) (fb imp : Json)
    (past : List Json)
    (hl : st.active_sessions.lookup session_id = some session)
    (hr : (generate_review env ro session.scenario session.user_responses
      session.tracker).result = .ok fb)
    (hp : get_past_summaries st.disk 5 = .ok past)
    (hpne : past ≠ [])
    (hc : fb.pyContains "error" = .ok false)
    (hi : (generate_improvement_comparison env io past fb
      (generate_review env ro session.scenario session.user_responses
        session.tracker).tracker).result = .ok imp) :
    review_session env ro io st session_id =
      finishReview env st session_id session fb (some imp)
        (generate_improvement_comparison env io past fb
          (generate_review env ro session.scenario session.user_responses
            session.tracker).tracker).tracker
        ((generate_review env ro session.scenario session.user_responses
          session.tracker).oracle_calls ++
         (generate_improvement_comparison env io past fb
          (generate_review env ro session.scenario session.user_responses
            session.tracker).tracker).oracle_calls) := by
  have hpe2 : past.isEmpty = false := by
    cases past with
    | nil => exact absurd rfl hpne
    | cons a t => rfl
  simp [review_session, hl, hr, hp, hpe2, hc, hi]

theorem review_session_improve_err_eq (env : Env)
    (ro io : Except String OracleResponse) (st : ServerState)
    (session_id : String) (session : Session) (fb : Json) (e : CallError)
    (past : List Json)
    (hl : st.active_sessions.lookup session_id = some session)
    (hr : (generate_review env ro session.scenario session.user_responses
      session.tracker).result = .ok fb)
    (hp : get_past_summaries st.disk 5 = .ok past)
    (hpne : past ≠ [])
    (hc : fb.pyContains "error" = .ok false)
    (hi : (generate_improvement_comparison env io past fb
      (generate_review env ro session.scenario session.user_responses
        session.tracker).tracker).result = .error e) :
    review_session env ro io st session_id =
      finishReview env st session_id session fb none
        (generate_improvement_comparison env io past fb
          (generate_review env ro session.scenario session.user_responses
            session.tracker).tracker).tracker
        ((generate_review env ro session.scenario session.user_responses
          session.tracker).oracle_calls ++
         (generate_improvement_comparison env io past fb
          (generate_review env ro session.scenario session.user_responses
            session.tracker).tracker).oracle_calls) := by
  have hpe2 : past.isEmpty = false := by
    cases past with
    | nil => exact absurd rfl hpne
    | cons a t => rfl
  simp [review_session, hl, hr, hp, hpe2, hc, hi]

theorem finishReview_facts (env : Env) (st : ServerState) (session_id : String)
    (session : Session) (fb : Json) (improvement : Option Json)
    (tracker : TokenTracker) (calls : List String)
    (hnd : (st.active_sessions.map Prod.fst).Nodup) :
    ((finishReview env st session_id session fb improvement tracker
        calls).state.disk.lookup session_id).isSome = true
    ∧ (finishReview env st session_id session fb improvement tracker
        calls).state.active_sessions.lookup session_id = none
    ∧ (finishReview env st session_id session fb improvement tracker
        calls).response = .ok (.obj [("feedback", fb),
        ("improvement", improvement.getD .null),
        ("token_usage", tracker.to_dict env.model)])
    ∧ (finishReview env st session_id session fb improvement tracker
        calls).calls = calls := by
  refine ⟨?_, ?_, rfl, rfl⟩
  · simp [finishReview, save_session, lookup_assocSet_self]
  · simp [finishReview, lookup_assocRemove_self _ hnd]

/-- C1 as amended: when the review call raises (budget, transport, or the
fence-stripping IndexError), the session is not persisted, remains in the
in-memory table (with its tracker recording any usage the call tracked before
raising) and stays active for retry; but when the review call returns —
including when it returns the parse-failure sentinel — the record is persisted
and the in-memory entry is removed. -/
theorem review_finalization (env : Env)
    (ro io : Except String OracleResponse) (st : ServerState)
    (session_id : String) (session : Session)
    (hl : st.active_sessions.lookup session_id = some session)
    (hnd : (st.active_sessions.map Prod.fst).Nodup) :
    (∀ e, (generate_review env ro session.scenario session.user_responses
        session.tracker).result = .error e →
      (review_session env ro io st session_id).state.disk = st.disk
      ∧ (review_session env ro io st session_id).state.active_sessions.lookup
          session_id = some { session with
            tracker := (generate_review env ro session.scenario
              session.user_responses session.tracker).tracker }
      ∧ (review_session env ro io st session_id).response =
          .error (.internal "Review failed"))
    ∧ (∀ fb past b,
      (generate_review env ro session.scenario session.user_responses
        session.tracker).result = .ok fb →
      get_past_summaries st.disk 5 = .ok past →
      fb.pyContains "error" = .ok b →
      ((review_session env ro io st session_id).state.disk.lookup
          session_id).isSome = true
      ∧ (review_session env ro io st session_id).state.active_sessions.lookup
          session_id = none) := by
  constructor
  · intro e he
    rw [review_session_raise_eq env ro io st session_id session e hl he]
    refine ⟨rfl, ?_, rfl⟩
    simp [retainWithTracker, lookup_assocSet_self]
  · intro fb past b hr hp hc
    by_cases hskip : past = [] ∨ b = true
    · rw [review_session_skip_eq env ro io st session_id session fb past b hl
        hr hp hc hskip]
      exact ⟨(finishReview_facts _ _ _ _ _ _ _ _ hnd).1,
        (finishReview_facts _ _ _ _ _ _ _ _ hnd).2.1⟩
    · push_neg at hskip
      have hpne : past ≠ [] := hskip.1
      have hb : b = false := by
        cases b
        · rfl
        · exact absurd rfl hskip.2
      subst hb
      cases hi : (generate_improvement_comparison env io past fb
          (generate_review env ro session.scenario session.user_responses
            session.tracker).tracker).result with
      | ok imp =>
        rw [review_session_improve_ok_eq env ro io st session_id session fb
          imp past hl hr hp hpne hc hi]
        exact ⟨(finishReview_facts _ _ _ _ _ _ _ _ hnd).1,
          (finishReview_facts _ _ _ _ _ _ _ _ hnd).2.1⟩
      | error e =>
        rw [review_session_improve_err_eq env ro io st session_id session fb
          e past hl hr hp hpne hc hi]
        exact ⟨(finishReview_facts _ _ _ _ _ _ _ _ hnd).1,
          (finishReview_facts _ _ _ _ _ _ _ _ hnd).2.1⟩

/-- A JSON parser stub that rejects every payload — the behaviour of
`json.loads` on non-JSON text. -/
def parseNothing : String → Except String Json := fun _ => .error "Expecting value"

/-- A plain environment: Opus pricing, the default $4 ceiling and settings. -/
def envPlain : Env :=
  { model := mOpus, cost_limit := 4, domain := none,
    difficulty := "intermediate", timer_request := 420, timer_document := 420,
    timer_data := 420, jsonParse := parseNothing, prompts := promptStub }

/-- An oracle whose review answer is malformed text (with zero token usage, so
cost arithmetic stays trivial). -/
def reviewOracleBad : Except String OracleResponse := .ok ⟨"not json", ⟨0, 0⟩⟩

/-- The sentinel record `_call_claude` builds for the `"not json"` payload. -/
def reviewSentinel : Json :=
  .obj [("error", .str "Failed to parse JSON response"),
        ("raw_response", .str "not json"),
        ("parse_error", .str "Expecting value")]

theorem envPlain_under_budget :
    ¬ (envPlain.cost_limit ≤ sampleSession.tracker.estimate_cost envPlain.model) := by
  show ¬ ((4 : ℚ) ≤ TokenTracker.init.estimate_cost mOpus)
  rw [estimate_cost_init]
  norm_num

theorem genReview_sentinel_sample :
    (generate_review envPlain reviewOracleBad sampleSession.scenario
      sampleSession.user_responses sampleSession.tracker).result =
      .ok reviewSentinel := by
  unfold generate_review
  rw [callClaude_pass envPlain_under_budget]
  rfl

theorem genReview_transport_sample :
    (generate_review envPlain (.error "net") sampleSession.scenario
      sampleSession.user_responses sampleSession.tracker).result =
      .error (.transport "net") := by
  unfold generate_review
  rw [callClaude_pass envPlain_under_budget]
  rfl

/-- C1 counterexample: with the review call returning the parse-failure
sentinel (a result tagged `"error"`), the session IS persisted to disk and
removed from the in-memory table — it does not remain active for retry as the
claim states. -/
theorem review_sentinel_persisted_and_evicted :
    (generate_review envPlain reviewOracleBad sampleSession.scenario
      sampleSession.user_responses sampleSession.tracker).result =
      .ok reviewSentinel
    ∧ reviewSentinel.pyContains "error" = .ok true
    ∧ ((review_session envPlain reviewOracleBad (.error "net") sampleState
        "2026-02-07_001").state.disk.lookup "2026-02-07_001").isSome = true
    ∧ (review_session envPlain reviewOracleBad (.error "net") sampleState
        "2026-02-07_001").state.active_sessions.lookup "2026-02-07_001" =
      none := by
  refine ⟨genReview_sentinel_sample, rfl, ?_, ?_⟩
  · rw [review_session_skip_eq envPlain reviewOracleBad (.error "net")
      sampleState "2026-02-07_001" sampleSession reviewSentinel [] true rfl
      genReview_sentinel_sample rfl rfl (Or.inl rfl)]
    exact (finishReview_facts envPlain sampleState "2026-02-07_001"
      sampleSession reviewSentinel none _ _ (by simp [sampleState])).1
  · rw [review_session_skip_eq envPlain reviewOracleBad (.error "net")
      sampleState "2026-02-07_001" sampleSession reviewSentinel [] true rfl
      genReview_sentinel_sample rfl rfl (Or.inl rfl)]
    exact (finishReview_facts envPlain sampleState "2026-02-07_001"
      sampleSession reviewSentinel none _ _ (by simp [sampleState])).2.1

/-- Instantiation of amended C1: a raised (transport-failing) review call
leaves the session in memory and the disk untouched; a sentinel-returning
review call persists and evicts. -/
theorem review_finalization_instance :
    ((review_session envPlain (.error "net") (.error "net") sampleState
        "2026-02-07_001").state.disk = sampleState.disk
      ∧ (review_session envPlain (.error "net") (.error "net") sampleState
          "2026-02-07_001").state.active_sessions.lookup "2026-02-07_001" =
        some { sampleSession with
          tracker := (generate_review envPlain (.error "net")
            sampleSession.scenario sampleSession.user_responses
            sampleSession.tracker).tracker }
      ∧ (review_session envPlain (.error "net") (.error "net") sampleState
          "2026-02-07_001").response = .error (.internal "Review failed"))
    ∧ (((review_session envPlain reviewOracleBad (.error "net") sampleState
        "2026-02-07_001").state.disk.lookup "2026-02-07_001").isSome = true
      ∧ (review_session envPlain reviewOracleBad (.error "net") sampleState
          "2026-02-07_001").state.active_sessions.lookup "2026-02-07_001" =
        none) :=
  ⟨(review_finalization envPlain (.error "net") (.error "net") sampleState
      "2026-02-07_001" sampleSession rfl (by simp [sampleState])).1
    (.transport "net") genReview_transport_sample,
   (review_finalization envPlain reviewOracleBad (.error "net") sampleState
      "2026-02-07_001" sampleSession rfl (by simp [sampleState])).2
    reviewSentinel [] true genReview_sentinel_sample rfl rfl⟩

/-- C8: the improvement comparison runs exactly when prior graded summaries
exist and the review feedback carries no error tag; when the condition fails
the comparison oracle is never consulted; when it holds and the comparison
fails, the failure is downgraded to an absent ("null") comparison and the
review still succeeds and persists; when it holds and the comparison
succeeds, the comparison network call is placed and its result included. -/
theorem improvement_comparison_policy (env : Env)
    (ro io : Except String OracleResponse) (st : ServerState)
    (session_id : String) (session : Session) (fb : Json) (past : List Json)
    (hl : st.active_sessions.lookup session_id = some session)
    (hnd : (st.active_sessions.map Prod.fst).Nodup)
    (hr : (generate_review env ro session.scenario session.user_responses
      session.tracker).result = .ok fb)
    (hp : get_past_summaries st.disk 5 = .ok past) :
    (∀ b, fb.pyContains "error" = .ok b → (past = [] ∨ b = true) →
      (review_session env ro io st session_id).calls = ["review"]
      ∧ (review_session env ro io st session_id).response =
          .ok (.obj [("feedback", fb), ("improvement", Json.null),
            ("token_usage", (generate_review env ro session.scenario
              session.user_responses session.tracker).tracker.to_dict
              env.model)]))
    ∧ (∀ e, fb.pyContains "error" = .ok false → past ≠ [] →
      (generate_improvement_comparison env io past fb
        (generate_review env ro session.scenario session.user_responses
          session.tracker).tracker).result = .error e →
      (review_session env ro io st session_id).response =
          .ok (.obj [("feedback", fb), ("improvement", Json.null),
            ("token_usage", (generate_improvement_comparison env io past fb
              (generate_review env ro session.scenario session.user_responses
                session.tracker).tracker).tracker.to_dict env.model)])
      ∧ ((review_session env ro io st session_id).state.disk.lookup
          session_id).isSome = true
      ∧ (review_session env ro io st session_id).state.active_sessions.lookup
          session_id = none)
    ∧ (∀ imp, fb.pyContains "error" = .ok false → past ≠ [] →
      (generate_improvement_comparison env io past fb
        (generate_review env ro session.scenario session.user_responses
          session.tracker).tracker).result = .ok imp →
      (review_session env ro io st session_id).calls =
          ["review", "improvement_comparison"]
      ∧ (review_session env ro io st session_id).response =
          .ok (.obj [("feedback", fb), ("improvement", imp),
            ("token_usage", (generate_improvement_comparison env io past fb
              (generate_review env ro session.scenario session.user_responses
                session.tracker).tracker).tracker.to_dict env.model)])) := by
  have hrcalls : (generate_review env ro session.scenario
      session.user_responses session.tracker).oracle_calls = ["review"] := by
    unfold generate_review at hr ⊢
    rw [callClaude_eq_net_of_ok hr]
    exact callClaudeNet_calls _ _ _ _
  refine ⟨?_, ?_, ?_⟩
  · intro b hc hskip
    rw [review_session_skip_eq env ro io st session_id session fb past b hl
      hr hp hc hskip]
    have hf := finishReview_facts env st session_id session fb none
      (generate_review env ro session.scenario session.user_responses
        session.tracker).tracker
      (generate_review env ro session.scenario session.user_responses
        session.tracker).oracle_calls hnd
    refine ⟨hf.2.2.2.trans hrcalls, hf.2.2.1.trans ?_⟩
    rfl
  · intro e hc hpne hi
    rw [review_session_improve_err_eq env ro io st session_id session fb e
      past hl hr hp hpne hc hi]
    have hf := finishReview_facts env st session_id session fb none
      (generate_improvement_comparison env io past fb
        (generate_review env ro session.scenario session.user_responses
          session.tracker).tracker).tracker
      ((generate_review env ro session.scenario session.user_responses
        session.tracker).oracle_calls ++
       (generate_improvement_comparison env io past fb
        (generate_review env ro session.scenario session.user_responses
          session.tracker).tracker).oracle_calls) hnd
    exact ⟨hf.2.2.1.trans rfl, hf.1, hf.2.1⟩
  · intro imp hc hpne hi
    have hicalls : (generate_improvement_comparison env io past fb
        (generate_review env ro session.scenario session.user_responses
          session.tracker).tracker).oracle_calls =
        ["improvement_comparison"] := by
      unfold generate_improvement_comparison at hi ⊢
      rw [callClaude_eq_net_of_ok hi]
      exact callClaudeNet_calls _ _ _ _
    rw [review_session_improve_ok_eq env ro io st session_id session fb imp
      past hl hr hp hpne hc hi]
    have hf := finishReview_facts env st session_id session fb (some imp)
      (generate_improvement_comparison env io past fb
        (generate_review env ro session.scenario session.user_responses
          session.tracker).tracker).tracker
      ((generate_review env ro session.scenario session.user_responses
        session.tracker).oracle_calls ++
       (generate_improvement_comparison env io past fb
        (generate_review env ro session.scenario session.user_responses
          session.tracker).tracker).oracle_calls) hnd
    constructor
    · rw [hf.2.2.2, hrcalls, hicalls]
      rfl
    · exact hf.2.2.1.trans rfl

/-- A JSON parser stub with two known-good payloads — the behaviour of
`json.loads` on the review answer `"FB"` and the comparison answer `"IMP"`. -/
def parseTable : String → Except String Json := fun s =>
  if s == "FB" then .ok (.obj [("overall", .str "good")])
  else if s == "IMP" then .ok (.obj [("trend", .str "up")])
  else .error "Expecting value"

def envHist : Env := { envPlain with jsonParse := parseTable }

/-- A persisted record with a completed top-level score (a graded session). -/
def recGraded : Json :=
  .obj [("feedback", .obj [("overall", .obj [("score", .num 4)])])]

/-- One active session and one graded record already on disk. -/
def stateHist : ServerState :=
  ⟨[("2026-02-07_001", sampleSession)], [],
   [("2026-02-06_001", .ok recGraded)], []⟩

def fbParsed : Json := .obj [("overall", .str "good")]

def impParsed : Json := .obj [("trend", .str "up")]

def pastHist : List Json :=
  [.obj [("session_id", .str "2026-02-06_001"), ("overall_score", .num 4),
         ("summary", .str ""), ("top_improvement", .str "")]]

def roFB : Except String OracleResponse := .ok ⟨"FB", ⟨0, 0⟩⟩

def ioIMP : Except String OracleResponse := .ok ⟨"IMP", ⟨0, 0⟩⟩

theorem envHist_under_budget :
    ¬ (envHist.cost_limit ≤
      sampleSession.tracker.estimate_cost envHist.model) := by
  show ¬ ((4 : ℚ) ≤ TokenTracker.init.estimate_cost mOpus)
  rw [estimate_cost_init]
  norm_num

theorem genReview_fb_hist :
    (generate_review envHist roFB sampleSession.scenario
      sampleSession.user_responses sampleSession.tracker).result =
      .ok fbParsed := by
  unfold generate_review
  rw [callClaude_pass envHist_under_budget]
  rfl

theorem genReview_fb_hist_tracker :
    (generate_review envHist roFB sampleSession.scenario
      sampleSession.user_responses sampleSession.tracker).tracker =
      TokenTracker.init.track 0 0 "review" := by
  unfold generate_review
  rw [callClaude_pass envHist_under_budget]
  rfl

theorem tracked_review_under_budget :
    ¬ (envHist.cost_limit ≤
      (TokenTracker.init.track 0 0 "review").estimate_cost envHist.model) := by
  show ¬ ((4 : ℚ) ≤ (TokenTracker.init.track 0 0 "review").estimate_cost mOpus)
  rw [estimate_cost_zero_totals _ _ rfl rfl]
  norm_num

theorem genImprovement_transport_hist :
    (generate_improvement_comparison envHist (.error "net") pastHist fbParsed
      (generate_review envHist roFB sampleSession.scenario
        sampleSession.user_responses sampleSession.tracker).tracker).result =
      .error (.transport "net") := by
  rw [genReview_fb_hist_tracker]
  unfold generate_improvement_comparison
  rw [callClaude_pass tracked_review_under_budget]
  rfl

theorem genImprovement_ok_hist :
    (generate_improvement_comparison envHist ioIMP pastHist fbParsed
      (generate_review envHist roFB sampleSession.scenario
        sampleSession.user_responses sampleSession.tracker).tracker).result =
      .ok impParsed := by
  rw [genReview_fb_hist_tracker]
  unfold generate_improvement_comparison
  rw [callClaude_pass tracked_review_under_budget]
  rfl

/-- Instantiation of C8: with no history (or an error-tagged review) the
comparison oracle is never consulted; with history and clean feedback a
transport-failing comparison is downgraded to null while the review persists;
with history and a working comparison oracle both calls are placed. -/
theorem improvement_comparison_policy_instance :
    ((review_session envPlain reviewOracleBad (.error "net") sampleState
        "2026-02-07_001").calls = ["review"]
      ∧ (review_session envPlain reviewOracleBad (.error "net") sampleState
          "2026-02-07_001").response =
        .ok (.obj [("feedback", reviewSentinel), ("improvement", Json.null),
          ("token_usage", (generate_review envPlain reviewOracleBad
            sampleSession.scenario sampleSession.user_responses
            sampleSession.tracker).tracker.to_dict envPlain.model)]))
    ∧ ((review_session envHist roFB (.error "net") stateHist
          "2026-02-07_001").response =
        .ok (.obj [("feedback", fbParsed), ("improvement", Json.null),
          ("token_usage", (generate_improvement_comparison envHist
            (.error "net") pastHist fbParsed
            (generate_review envHist roFB sampleSession.scenario
              sampleSession.user_responses
              sampleSession.tracker).tracker).tracker.to_dict envHist.model)])
      ∧ ((review_session envHist roFB (.error "net") stateHist
          "2026-02-07_001").state.disk.lookup "2026-02-07_001").isSome = true
      ∧ (review_session envHist roFB (.error "net") stateHist
          "2026-02-07_001").state.active_sessions.lookup "2026-02-07_001" =
        none)
    ∧ ((review_session envHist roFB ioIMP stateHist
          "2026-02-07_001").calls = ["review", "improvement_comparison"]
      ∧ (review_session envHist roFB ioIMP stateHist
          "2026-02-07_001").response =
        .ok (.obj [("feedback", fbParsed), ("improvement", impParsed),
          ("token_usage", (generate_improvement_comparison envHist ioIMP
            pastHist fbParsed
            (generate_review envHist roFB sampleSession.scenario
              sampleSession.user_responses
              sampleSession.tracker).tracker).tracker.to_dict
            envHist.model)])) :=
  ⟨(improvement_comparison_policy envPlain reviewOracleBad (.error "net")
      sampleState "2026-02-07_001" sampleSession reviewSentinel []
      rfl (by simp [sampleState]) genReview_sentinel_sample rfl).1
      true rfl (Or.inr rfl),
   (improvement_comparison_policy envHist roFB (.error "net")
      stateHist "2026-02-07_001" sampleSession fbParsed pastHist
      rfl (by simp [stateHist]) genReview_fb_hist rfl).2.1
      (.transport "net") rfl (by simp [pastHist])
      genImprovement_transport_hist,
   (improvement_comparison_policy envHist roFB ioIMP
      stateHist "2026-02-07_001" sampleSession fbParsed pastHist
      rfl (by simp [stateHist]) genReview_fb_hist rfl).2.2
      impParsed rfl (by simp [pastHist]) genImprovement_ok_hist⟩

/-- The server state after a quick-grading call raised or returned a
sentinel: the in-memory entry keeps all its fields except the tracker, which
the call mutated in place. -/
def quickRetained (st : ServerState) (session_id : String)
    (session : QuickSession) (t : TokenTracker) : ServerState :=
  let session' : QuickSession := { session with tracker := t }
  { st with active_quick_sessions :=
      assocSet st.active_quick_sessions session_id session' }

theorem submit_quick_sentinel_eq (env : Env)
    (go : Except String OracleResponse) (st : ServerState)
    (session_id response_text : String) (time_used : Int) (device : String)
    (session : QuickSession) (q docs kf ideal fb : Json)
    (hl : st.active_quick_sessions.lookup session_id = some session)
    (hq : session.scenario.pyIndex "question" = .ok q)
    (hd : session.scenario.pyIndex "documents" = .ok docs)
    (hk : session.scenario.pyIndex "key_facts" = .ok kf)
    (hi : session.scenario.pyIndex "ideal_response" = .ok ideal)
    (ho : (grade_quick_response env go q docs kf ideal response_text
      session.tracker).result = .ok fb)
    (hc : fb.pyContains "error" = .ok true) :
    submit_quick_session env go st session_id response_text time_used device =
      ⟨quickRetained st session_id session
         (grade_quick_response env go q docs kf ideal response_text
           session.tracker).tracker,
       (grade_quick_response env go q docs kf ideal response_text
         session.tracker).oracle_calls,
       .error (.internal "Grading parse error")⟩ := by
  simp [submit_quick_session, quickRetained, hl, hq, hd, hk, hi, ho, hc,
    Bind.bind, Except.bind, pure, Except.pure]

theorem submit_quick_raise_eq (env : Env)
    (go : Except String OracleResponse) (st : ServerState)
    (session_id response_text : String) (time_used : Int) (device : String)
    (session : QuickSession) (q docs kf ideal : Json) (e : CallError)
    (hl : st.active_quick_sessions.lookup session_id = some session)
    (hq : session.scenario.pyIndex "question" = .ok q)
    (hd : session.scenario.pyIndex "documents" = .ok docs)
    (hk : session.scenario.pyIndex "key_facts" = .ok kf)
    (hi : session.scenario.pyIndex "ideal_response" = .ok ideal)
    (ho : (grade_quick_response env go q docs kf ideal response_text
      session.tracker).result = .error e) :
    submit_quick_session env go st session_id response_text time_used device =
      ⟨quickRetained st session_id session
         (grade_quick_response env go q docs kf ideal response_text
           session.tracker).tracker,
       (grade_quick_response env go q docs kf ideal response_text
         session.tracker).oracle_calls,
       .error (.internal "Grading failed")⟩ := by
  simp [submit_quick_session, quickRetained, hl, hq, hd, hk, hi, ho,
    Bind.bind, Except.bind, pure, Except.pure]

theorem submit_quick_ok_eq (env : Env)
    (go : Except String OracleResponse) (st : ServerState)
    (session_id response_text : String) (time_used : Int) (device : String)
    (session : QuickSession) (q docs kf ideal fb : Json)
    (hl : st.active_quick_sessions.lookup session_id = some session)
    (hq : session.scenario.pyIndex "question" = .ok q)
    (hd : session.scenario.pyIndex "documents" = .ok docs)
    (hk : session.scenario.pyIndex "key_facts" = .ok kf)
    (hi : session.scenario.pyIndex "ideal_response" = .ok ideal)
    (ho : (grade_quick_response env go q docs kf ideal response_text
      session.tracker).result = .ok fb)
    (hc : fb.pyContains "error" = .ok false) :
    submit_quick_session env go st session_id response_text time_used device =
      ⟨{ st with
           quick_disk := save_session st.quick_disk session_id
             (.obj [("session_id", .str session_id),
                    ("timestamp", .str session.timestamp),
                    ("duration_mode", .str session.duration_mode),
                    ("question", q), ("documents", docs),
                    ("key_facts", kf), ("ideal_response", ideal),
                    ("user_response", .str response_text),
                    ("time_used", .num time_used),
                    ("device", .str device), ("feedback", fb),
                    ("token_usage", (grade_quick_response env go q docs kf
                      ideal response_text
                      session.tracker).tracker.to_dict env.model)])
           active_quick_sessions :=
             assocRemove st.active_quick_sessions session_id },
       (grade_quick_response env go q docs kf ideal response_text
         session.tracker).oracle_calls,
       .ok (.obj [("feedback", fb)])⟩ := by
  simp [submit_quick_session, hl, hq, hd, hk, hi, ho, hc,
    Bind.bind, Except.bind, pure, Except.pure]

/-- C10 as amended: when quick grading returns the parse-failure sentinel,
quick submit fails with an error, writes nothing to durable storage, and the
quick session stays in the in-memory table with every field unchanged except
its cost tracker, which records the grading call's token usage; the quick
session is persisted and evicted only when grading returns a successfully
parsed result. -/
theorem quick_grade_atomicity (env : Env)
    (go : Except String OracleResponse) (st : ServerState)
    (session_id response_text : String) (time_used : Int) (device : String)
    (session : QuickSession) (q docs kf ideal : Json)
    (hl : st.active_quick_sessions.lookup session_id = some session)
    (hnd : (st.active_quick_sessions.map Prod.fst).Nodup)
    (hq : session.scenario.pyIndex "question" = .ok q)
    (hd : session.scenario.pyIndex "documents" = .ok docs)
    (hk : session.scenario.pyIndex "key_facts" = .ok kf)
    (hi : session.scenario.pyIndex "ideal_response" = .ok ideal) :
    (∀ fb, (grade_quick_response env go q docs kf ideal response_text
        session.tracker).result = .ok fb →
      fb.pyContains "error" = .ok true →
      (submit_quick_session env go st session_id response_text time_used
        device).response = .error (.internal "Grading parse error")
      ∧ (submit_quick_session env go st session_id response_text time_used
          device).state.quick_disk = st.quick_disk
      ∧ (submit_quick_session env go st session_id response_text time_used
          device).state.active_quick_sessions.lookup session_id =
        some { session with
          tracker := (grade_quick_response env go q docs kf ideal
            response_text session.tracker).tracker })
    ∧ (∀ fb, (grade_quick_response env go q docs kf ideal response_text
        session.tracker).result = .ok fb →
      fb.pyContains "error" = .ok false →
      ((submit_quick_session env go st session_id response_text time_used
          device).state.quick_disk.lookup session_id).isSome = true
      ∧ (submit_quick_session env go st session_id response_text time_used
          device).state.active_quick_sessions.lookup session_id = none
      ∧ (submit_quick_session env go st session_id response_text time_used
          device).response = .ok (.obj [("feedback", fb)])) := by
  constructor
  · intro fb ho hc
    rw [submit_quick_sentinel_eq env go st session_id response_text time_used
      device session q docs kf ideal fb hl hq hd hk hi ho hc]
    refine ⟨rfl, rfl, ?_⟩
    simp only [quickRetained]
    exact lookup_assocSet_self _ _ _

  · intro fb ho hc
    rw [submit_quick_ok_eq env go st session_id response_text time_used
      device session q docs kf ideal fb hl hq hd hk hi ho hc]
    refine ⟨?_, ?_, rfl⟩
    · simp [save_session, lookup_assocSet_self]
    · exact lookup_assocRemove_self _ hnd _

/-- A minimal active quick session. -/
def quickScenario : Json :=
  .obj [("question", .str "q"), ("documents", .arr []),
        ("key_facts", .arr []), ("ideal_response", .str "i")]

def quickSample : QuickSession :=
  ⟨"quick_2026-02-07_001", "ts", "5min", quickScenario, TokenTracker.init⟩

def quickState : ServerState :=
  ⟨[], [("quick_2026-02-07_001", quickSample)], [], []⟩

theorem envPlain_quick_under_budget :
    ¬ (envPlain.cost_limit ≤
      quickSample.tracker.estimate_cost envPlain.model) := by
  show ¬ ((4 : ℚ) ≤ TokenTracker.init.estimate_cost mOpus)
  rw [estimate_cost_init]
  norm_num

/-- The grading oracle answers with malformed text (zero usage). -/
def gradeOracleBad : Except String OracleResponse := .ok ⟨"not json", ⟨0, 0⟩⟩

def gradeSentinel : Json :=
  .obj [("error", .str "Failed to parse JSON response"),
        ("raw_response", .str "not json"),
        ("parse_error", .str "Expecting value")]

theorem gradeQuick_sentinel_sample :
    (grade_quick_response envPlain gradeOracleBad (.str "q") (.arr [])
      (.arr []) (.str "i") "resp" quickSample.tracker).result =
      .ok gradeSentinel := by
  unfold grade_quick_response
  rw [callClaude_pass envPlain_quick_under_budget]
  rfl

theorem gradeQuick_sentinel_sample_tracker :
    (grade_quick_response envPlain gradeOracleBad (.str "q") (.arr [])
      (.arr []) (.str "i") "resp" quickSample.tracker).tracker =
      TokenTracker.init.track 0 0 "quick_grade" := by
  unfold grade_quick_response
  rw [callClaude_pass envPlain_quick_under_budget]
  rfl

/-- C10 counterexample: when quick grading returns the parse-failure
sentinel, the submit fails and writes nothing — but the quick session in the
in-memory table is NOT unchanged: its tracker has recorded the grading call
(call count 1 instead of 0). -/
theorem quick_sentinel_session_changed :
    (grade_quick_response envPlain gradeOracleBad (.str "q") (.arr [])
      (.arr []) (.str "i") "resp" quickSample.tracker).result =
      .ok gradeSentinel
    ∧ (submit_quick_session envPlain gradeOracleBad quickState
        "quick_2026-02-07_001" "resp" 10 "mobile").response =
      .error (.internal "Grading parse error")
    ∧ (submit_quick_session envPlain gradeOracleBad quickState
        "quick_2026-02-07_001" "resp" 10 "mobile").state.quick_disk = []
    ∧ ((submit_quick_session envPlain gradeOracleBad quickState
        "quick_2026-02-07_001" "resp" 10
        "mobile").state.active_quick_sessions.lookup
        "quick_2026-02-07_001").map (fun s => s.tracker.call_count) = some 1
    ∧ quickSample.tracker.call_count = 0 := by
  refine ⟨gradeQuick_sentinel_sample, ?_, ?_, ?_, rfl⟩
  · rw [submit_quick_sentinel_eq envPlain gradeOracleBad quickState
      "quick_2026-02-07_001" "resp" 10 "mobile" quickSample (.str "q")
      (.arr []) (.arr []) (.str "i") gradeSentinel rfl rfl rfl rfl rfl
      gradeQuick_sentinel_sample rfl]
  · rw [submit_quick_sentinel_eq envPlain gradeOracleBad quickState
      "quick_2026-02-07_001" "resp" 10 "mobile" quickSample (.str "q")
      (.arr []) (.arr []) (.str "i") gradeSentinel rfl rfl rfl rfl rfl
      gradeQuick_sentinel_sample rfl]
    rfl
  · rw [submit_quick_sentinel_eq envPlain gradeOracleBad quickState
      "quick_2026-02-07_001" "resp" 10 "mobile" quickSample (.str "q")
      (.arr []) (.arr []) (.str "i") gradeSentinel rfl rfl rfl rfl rfl
      gradeQuick_sentinel_sample rfl,
      gradeQuick_sentinel_sample_tracker]
    rfl

theorem envHist_quick_under_budget :
    ¬ (envHist.cost_limit ≤
      quickSample.tracker.estimate_cost envHist.model) := by
  show ¬ ((4 : ℚ) ≤ TokenTracker.init.estimate_cost mOpus)
  rw [estimate_cost_init]
  norm_num

/-- A grading oracle whose answer parses. -/
def gradeOracleOK : Except String OracleResponse := .ok ⟨"FB", ⟨0, 0⟩⟩

theorem gradeQuick_ok_sample :
    (grade_quick_response envHist gradeOracleOK (.str "q") (.arr [])
      (.arr []) (.str "i") "resp" quickSample.tracker).result =
      .ok fbParsed := by
  unfold grade_quick_response
  rw [callClaude_pass envHist_quick_under_budget]
  rfl

/-- Instantiation of amended C10: a sentinel-returning grade leaves the quick
session in memory (tracker updated, nothing else) and writes nothing; a
successfully parsed grade persists and evicts. -/
theorem quick_grade_atomicity_instance :
    ((submit_quick_session envPlain gradeOracleBad quickState
        "quick_2026-02-07_001" "resp" 10 "mobile").response =
        .error (.internal "Grading parse error")
      ∧ (submit_quick_session envPlain gradeOracleBad quickState
          "quick_2026-02-07_001" "resp" 10 "mobile").state.quick_disk =
        quickState.quick_disk
      ∧ (submit_quick_session envPlain gradeOracleBad quickState
          "quick_2026-02-07_001" "resp" 10
          "mobile").state.active_quick_sessions.lookup
          "quick_2026-02-07_001" =
        some { quickSample with
          tracker := (grade_quick_response envPlain gradeOracleBad (.str "q")
            (.arr []) (.arr []) (.str "i") "resp"
            quickSample.tracker).tracker })
    ∧ (((submit_quick_session envHist gradeOracleOK quickState
        "quick_2026-02-07_001" "resp" 10
        "mobile").state.quick_disk.lookup "quick_2026-02-07_001").isSome = true
      ∧ (submit_quick_session envHist gradeOracleOK quickState
          "quick_2026-02-07_001" "resp" 10
          "mobile").state.active_quick_sessions.lookup
          "quick_2026-02-07_001" = none
      ∧ (submit_quick_session envHist gradeOracleOK quickState
          "quick_2026-02-07_001" "resp" 10 "mobile").response =
        .ok (.obj [("feedback", fbParsed)])) :=
  ⟨(quick_grade_atomicity envPlain gradeOracleBad quickState
      "quick_2026-02-07_001" "resp" 10 "mobile" quickSample (.str "q")
      (.arr []) (.arr []) (.str "i") rfl (by simp [quickState]) rfl rfl rfl
      rfl).1 gradeSentinel gradeQuick_sentinel_sample rfl,
   (quick_grade_atomicity envHist gradeOracleOK quickState
      "quick_2026-02-07_001" "resp" 10 "mobile" quickSample (.str "q")
      (.arr []) (.arr []) (.str "i") rfl (by simp [quickState]) rfl rfl rfl
      rfl).2 fbParsed gradeQuick_ok_sample rfl⟩
